import Mathlib

/-! Verification of the GeneAccessAI conversational intake core: the field
normalizers and conversation state machine of
`ai_engine/chatbot/chatbot_flow.py`, and the feature assembler and
rule-adjusted predictor of `reports/generator.py`.  Python strings are
modelled as Lean `String`, floats as `ℚ`, ints as `Int`/`Nat`, dictionaries
as association lists, and a raised exception as a `none`/`Option` result.
Lowercasing and the digit/word-character classes are modelled on the ASCII
range, which covers every token set appearing in the source. -/

set_option maxRecDepth 8192

/-! ### Python string primitives -/

/-- Whitespace characters stripped by Python `str.strip()`. -/
def pyWhitespace (c : Char) : Bool :=
  c = ' ' || c = '\t' || c = '\n' || c = '\r' || c = '\x0b' || c = '\x0c'

/-- Model of Python `str.strip()`. -/
def pyStrip (s : String) : String :=
  String.mk (((s.toList.dropWhile pyWhitespace).reverse.dropWhile pyWhitespace).reverse)

/-- Model of Python `str.lower()` (ASCII). -/
def pyLower (s : String) : String :=
  String.mk (s.toList.map Char.toLower)

/-- Unicode characters with the digit property but outside the decimal
class: `str.isdigit()` accepts them while `int()` rejects them with a
`ValueError`.  Modelled by the superscript and subscript digits (the
Latin-1 superscripts and the U+2070/U+2080 blocks); further such
characters (circled digits, …) behave the same way. -/
def pyDigitNotDecimal (c : Char) : Bool :=
  ['¹', '²', '³', '⁰', '⁴', '⁵', '⁶', '⁷', '⁸', '⁹',
   '₀', '₁', '₂', '₃', '₄', '₅', '₆', '₇', '₈', '₉'].contains c

/-- A character accepted by Python `str.isdigit()`: a decimal digit
(modelled on ASCII) or a digit-property character outside the decimal
class. -/
def pyIsDigitChar (c : Char) : Bool :=
  c.isDigit || pyDigitNotDecimal c

/-- Model of Python `str.isdigit()`: nonempty and all digit-property
characters.  This is strictly wider than `int()`-parseability: a token of
digit-property characters can still make `int()` raise (e.g. "²"). -/
def pyIsDigit (s : String) : Bool :=
  !s.toList.isEmpty && s.toList.all pyIsDigitChar

/-- Value of a list of decimal digit characters, most significant first. -/
def digitsVal (ds : List Char) : Nat :=
  ds.foldl (fun a c => a * 10 + (c.toNat - 48)) 0

/-- Does `p` occur at the head of `l`? (used to model Python substring tests) -/
def listStarts : List Char → List Char → Bool
  | [], _ => true
  | _ :: _, [] => false
  | p :: ps, c :: cs => p = c && listStarts ps cs

/-- Auxiliary scan for `strContains`. -/
def containsAux (sub : List Char) : List Char → Bool
  | [] => listStarts sub []
  | c :: rest => listStarts sub (c :: rest) || containsAux sub rest

/-- Model of the Python substring test `sub in hay`. -/
def strContains (hay sub : String) : Bool :=
  containsAux sub.toList hay.toList

/-- Model of Python `s.startswith(pre)`. -/
def strStarts (s pre : String) : Bool :=
  listStarts pre.toList s.toList

/-- Fractional value of digit characters after a decimal point. -/
def fracVal (ds : List Char) : ℚ :=
  (digitsVal ds : ℚ) / (10 ^ ds.length)

/-- Match the regex `\d*\.?\d+` at the head of `l` (after an optional sign),
with the greedy/backtracking semantics of `re`: a maximal digit run, then an
optional dot followed by at least one digit; if the dot is not followed by a
digit it is not consumed. -/
def numCore (l : List Char) : Option ℚ :=
  let d1 := l.takeWhile Char.isDigit
  let rest := l.drop d1.length
  let d2 := rest.tail.takeWhile Char.isDigit
  if rest.head? = some '.' ∧ 0 < d2.length then
    some ((digitsVal d1 : ℚ) + fracVal d2)
  else if 0 < d1.length then some ((digitsVal d1 : ℚ)) else none

/-- Match `[-+]?\d*\.?\d+` at the head of `l`. -/
def matchNumAt (l : List Char) : Option ℚ :=
  if l.head? = some '+' then numCore l.tail
  else if l.head? = some '-' then (numCore l.tail).map Neg.neg
  else numCore l

/-- Leftmost match of `[-+]?\d*\.?\d+`, as in `re.search`. -/
def scanNum : List Char → Option ℚ
  | [] => none
  | c :: rest =>
    match matchNumAt (c :: rest) with
    | some q => some q
    | none => scanNum rest

/-- `chatbot_flow.extract_numeric`: first number in the text, default `0.0`. -/
def extract_numeric (text : String) : ℚ :=
  (scanNum text.toList).getD 0

/-- Word characters for the regex `\b` boundary (`[A-Za-z0-9_]`). -/
def isWordC (c : Char) : Bool :=
  c.isAlphanum || c = '_'

/-- Right `\b` boundary after a digit run: end of input or a non-word
character. -/
def ageBoundaryOk : List Char → Bool
  | [] => true
  | a :: _ => !isWordC a

/-- Scan for the regex `\b(\d{1,3})\b`: a maximal digit run of length at most
3 whose left neighbour (tracked by `prevWord`) and right neighbour are
non-word characters.  A run failing the check cannot match at any shorter
length either, so the scan resumes one character further right. -/
def findAge : List Char → Bool → Option Nat
  | [], _ => none
  | c :: rest, prevWord =>
    if c.isDigit && !prevWord then
      if (List.takeWhile Char.isDigit (c :: rest)).length ≤ 3
          && ageBoundaryOk (List.drop (List.takeWhile Char.isDigit (c :: rest)).length (c :: rest)) then
        some (digitsVal (List.takeWhile Char.isDigit (c :: rest)))
      else findAge rest (isWordC c)
    else findAge rest (isWordC c)

/-- `chatbot_flow.extract_age`: first standalone 1–3 digit run, default `0`. -/
def extract_age (text : String) : Nat :=
  (findAge text.toList false).getD 0

/-! ### extract_name (chatbot_flow.extract_name) -/

/-- Removes the markdown emphasis characters, as `re.sub(r'[*_`]', '', text)`. -/
def stripMd (s : String) : String :=
  String.mk (s.toList.filter (fun c => c ≠ '*' && c ≠ '_' && c ≠ '`'))

/-- Case-insensitive literal match of `pat` at the head of `l`; returns the
rest of the input on success. -/
def icStarts : List Char → List Char → Option (List Char)
  | [], l => some l
  | _ :: _, [] => none
  | p :: ps, c :: cs => if c.toLower = p then icStarts ps cs else none

/-- One name word under `re.IGNORECASE`: `[A-Z][a-z]+` matches a letter
followed by a maximal run of at least one more letter. -/
def takeWordIC (l : List Char) : Option (List Char × List Char) :=
  match l with
  | a :: b :: rest =>
    if a.isAlpha && b.isAlpha then
      let more := rest.takeWhile Char.isAlpha
      some (a :: b :: more, rest.drop more.length)
    else none
  | _ => none

/-- Greedy `(?:\s+[A-Z][a-z]+)*` continuation of the captured name.  The
fuel argument only bounds the iteration count; each iteration consumes at
least one character, so fuel equal to the input length is exact. -/
def moreWords : Nat → List Char → List Char
  | 0, _ => []
  | n + 1, l =>
    let ws := l.takeWhile pyWhitespace
    if ws.isEmpty then []
    else
      match takeWordIC (l.drop ws.length) with
      | none => []
      | some (w, rest) => ws ++ w ++ moreWords n rest

/-- After a trigger phrase: `\s+` then the captured name group. -/
def nameTail (l : List Char) : Option (List Char) :=
  let ws := l.takeWhile pyWhitespace
  if ws.isEmpty then none
  else
    match takeWordIC (l.drop ws.length) with
    | none => none
    | some (w, rest) => some (w ++ moreWords rest.length rest)

/-- Try the three trigger alternatives at this position, in regex order. -/
def tryTriggerAt (l : List Char) : Option (List Char) :=
  match (icStarts "my name is".toList l).bind nameTail with
  | some r => some r
  | none =>
    match (icStarts "i am".toList l).bind nameTail with
    | some r => some r
    | none => (icStarts "this is".toList l).bind nameTail

/-- Leftmost match of the trigger-phrase regex of `extract_name`. -/
def findTrigger : List Char → Option (List Char)
  | [] => none
  | c :: rest =>
    match tryTriggerAt (c :: rest) with
    | some r => some r
    | none => findTrigger rest

/-- Model of Python `str.istitle()` (ASCII): at least one cased character,
upper case only after an uncased character, lower case only after a cased
one. -/
def istitleAux : List Char → Bool → Bool → Bool
  | [], _, seen => seen
  | c :: rest, prev, seen =>
    if c.isUpper then (if prev then false else istitleAux rest true true)
    else if c.isLower then (if prev then istitleAux rest true true else false)
    else istitleAux rest false seen

/-- Python `str.istitle()` on one token. -/
def pyIsTitle (tok : String) : Bool :=
  istitleAux tok.toList false false

/-- Python `str.split()` with no separator: split on whitespace runs,
dropping empty pieces. -/
def pySplitWs (s : String) : List String :=
  (s.split (fun c => pyWhitespace c)).filter (fun w => w ≠ "")

/-- `chatbot_flow.extract_name`: strip markdown characters, search for
"my name is / i am / this is NAME" (case-insensitive), else join the
title-cased words of the text, else the stripped text. -/
def extract_name (text : String) : String :=
  let t := stripMd text
  match findTrigger t.toList with
  | some name => pyStrip (String.mk name)
  | none =>
    let words := (pySplitWs t).filter pyIsTitle
    if words ≠ [] then String.intercalate " " words else pyStrip t

/-! ### Capture-time normalizers (chatbot_flow) -/

/-- `chatbot_flow.norm_yes_no`. -/
def norm_yes_no (text : String) : String :=
  let t := pyLower (pyStrip text)
  if t ∈ ["y", "yes", "yeah", "yep", "true"] then "yes"
  else if t ∈ ["n", "no", "nope", "false"] then "no"
  else "not sure"

/-- `chatbot_flow.map_gender`. -/
def map_gender (text : String) : String :=
  let t := pyLower (pyStrip text)
  if t ∈ ["male", "m"] then "Male"
  else if t ∈ ["female", "f"] then "Female"
  else "Ambiguous"

/-- `chatbot_flow.map_binary_yes_no`. -/
def map_binary_yes_no (text : String) : String :=
  let t := norm_yes_no text
  if t = "yes" then "Yes" else "No"

/-- `chatbot_flow.map_birth_asphyxia`. -/
def map_birth_asphyxia (text : String) : String :=
  let t := norm_yes_no text
  if t = "yes" then "Yes"
  else if t = "no" then "No record"
  else "Not available"

/-- Negative-token set of `chatbot_flow.map_autopsy_birth_defect`. -/
def autopsy_negative_tokens : List String :=
  ["none", "no", "nil", "-", "not applicable", "na", "n/a", "unknown"]

/-- `chatbot_flow.map_autopsy_birth_defect`. -/
def map_autopsy_birth_defect (text : String) : String :=
  let t := pyLower (pyStrip text)
  if t ∈ autopsy_negative_tokens then "None" else "Yes"

/-- Negative-token set of `chatbot_flow.map_maternal_paternal_gene`; the
identical tuple is written inline twice in `reports/generator.py`
(`_build_input_row`, Maternal/Paternal gene). -/
def gene_negative_tokens : List String :=
  ["no", "none", "nil", "-", "not detected", "n/a", "na", "null", "",
   "not sure", "unknown"]

/-- `chatbot_flow.map_maternal_paternal_gene`. -/
def map_maternal_paternal_gene (text : String) : String :=
  let t := pyLower (pyStrip text)
  if t ∈ gene_negative_tokens then "No" else "Yes"

/-- `chatbot_flow.map_blood_test_result`. -/
def map_blood_test_result (text : String) : String :=
  let t := pyLower (pyStrip text)
  if t ∈ ["normal", "n", "ok", "within range"] then "normal"
  else if strContains t "high" || strContains t "low" || strContains t "abnormal"
      || strContains t "slightly abnormal" then "slightly abnormal"
  else "inconclusive"

/-- `chatbot_flow.map_respiratory_rate`. -/
def map_respiratory_rate (value_text : String) : String :=
  let t := pyLower (pyStrip value_text)
  if strContains t "tachyp" then "Tachypnea"
  else if strContains t "normal" then "Normal (30-60)"
  else
    match scanNum t.toList with
    | some val => if 30 ≤ val ∧ val ≤ 60 then "Normal (30-60)" else "Tachypnea"
    | none => "Normal (30-60)"

/-- `chatbot_flow.map_heart_rate`. -/
def map_heart_rate (value_text : String) : String :=
  let t := pyLower (pyStrip value_text)
  if strContains t "tachy" then "Tachycardia"
  else if strContains t "normal" then "Normal"
  else
    match scanNum t.toList with
    | some val => if 100 < val then "Tachycardia" else "Normal"
    | none => "Normal"

/-! ### Python values and dictionaries -/

/-- A Python value stored in the chatbot answer dictionary: a string, an
int, a float (modelled as `ℚ`), or the selected-symptom list. -/
inductive PyVal where
  | s (v : String)
  | i (v : Int)
  | q (v : ℚ)
  | l (v : List String)
deriving DecidableEq

/-- Python `str(v)`.  Only string values flow into the string normalizers in
the verified paths; numeric renderings are nominal. -/
def pvStr : PyVal → String
  | .s v => v
  | .i v => toString v
  | .q v => toString v
  | .l _ => "[...]"

/-- Association-list model of a Python dict: first binding of a key wins on
lookup, assignment overwrites in place or appends. -/
def dictGet? (d : List (String × PyVal)) (k : String) : Option PyVal :=
  (d.find? (fun p => p.1 = k)).map (fun p => p.2)

/-- Python `d.get(k, default)`. -/
def dictGetD (d : List (String × PyVal)) (k : String) (dv : PyVal) : PyVal :=
  (dictGet? d k).getD dv

/-- Python `d[k] = v`. -/
def dictSet (d : List (String × PyVal)) (k : String) (v : PyVal) : List (String × PyVal) :=
  if d.any (fun p => p.1 = k) then d.map (fun p => if p.1 = k then (k, v) else p)
  else d ++ [(k, v)]

/-! ### Numeric coercions (reports/generator.py) -/

/-- Python `round()` with no digits: round half to even, returning an int. -/
def roundHalfEven (q : ℚ) : Int :=
  let f := ⌊q⌋
  let r := q - f
  if r < 1/2 then f
  else if 1/2 < r then f + 1
  else if f % 2 = 0 then f else f + 1

/-- Truncation toward zero, as Python `int()` applied to a float. -/
def truncInt (q : ℚ) : Int :=
  if 0 ≤ q then ⌊q⌋ else -⌊-q⌋

/-- Unsigned part of a strict decimal parse: digits with an optional
fractional part, consuming the whole input. -/
def parseNumCore (l : List Char) : Option ℚ :=
  let d1 := l.takeWhile Char.isDigit
  let rest := l.drop d1.length
  if rest = [] then (if 0 < d1.length then some ((digitsVal d1 : ℚ)) else none)
  else if rest.head? = some '.' ∧ rest.tail.all Char.isDigit
      ∧ 0 < d1.length + rest.tail.length then
    some ((digitsVal d1 : ℚ) + fracVal rest.tail)
  else none

/-- Strict decimal parse of a whole string (surrounding whitespace allowed,
optional sign, digits with an optional fractional part); models the number
parsing of `pd.to_numeric` on a scalar string, which raises otherwise. -/
def parseNumStr (s : String) : Option ℚ :=
  let l := (pyStrip s).toList
  if l.head? = some '+' then parseNumCore l.tail
  else if l.head? = some '-' then (parseNumCore l.tail).map Neg.neg
  else parseNumCore l

/-- Python `int(v)` on a dict value: ints pass through, floats truncate,
strings must be a (signed) digit string, anything else raises (`none`). -/
def pyIntOf : PyVal → Option Int
  | .i n => some n
  | .q x => some (truncInt x)
  | .s s =>
    let l := (pyStrip s).toList
    let core := fun (d : List Char) =>
      if !d.isEmpty && d.all Char.isDigit then some ((digitsVal d : Int)) else none
    if l.head? = some '+' then core l.tail
    else if l.head? = some '-' then (core l.tail).map Neg.neg
    else core l
  | .l _ => none

/-- `generator._coerce_int`: `int(round(float(pd.to_numeric(v))))` with the
given default on any failure.  (`ℚ` has no NaN, so the NaN branch of the
float version cannot arise in the model.) -/
def _coerce_int (v : PyVal) (default : Int) : Int :=
  match v with
  | .i n => n
  | .q x => roundHalfEven x
  | .s s => match parseNumStr s with
            | some x => roundHalfEven x
            | none => default
  | .l _ => default

/-- `generator._coerce_float` with the given default on any failure. -/
def _coerce_float (v : PyVal) (default : ℚ) : ℚ :=
  match v with
  | .q x => x
  | .i n => (n : ℚ)
  | .s s => (parseNumStr s).getD default
  | .l _ => default

/-! ### Assembly-time normalizers (reports/generator.py) -/

/-- `generator._norm_yes_no` with its keyword parameters. -/
def _norm_yes_no (v : PyVal) (yes no unk : String) : String :=
  let t := pyLower (pyStrip (pvStr v))
  if t ∈ ["y", "yes", "yeah", "yep", "true", "1"] then yes
  else if t ∈ ["n", "no", "nope", "false", "0"] then no
  else unk

/-- `generator._norm_birth_asphyxia`. -/
def _norm_birth_asphyxia (v : PyVal) : String :=
  let t := pyLower (pyStrip (pvStr v))
  if t ∈ ["y", "yes", "yeah", "yep", "true", "1"] then "Yes"
  else if t ∈ ["n", "no", "nope", "false", "0"] then "No record"
  else "Not available"

/-- `generator._norm_blood_test_result`. -/
def _norm_blood_test_result (v : PyVal) : String :=
  let t := pyLower (pyStrip (pvStr v))
  if t ∈ ["normal", "ok", "within range"] then "normal"
  else if strContains t "high" || strContains t "low" || strContains t "abnormal"
      || strContains t "slightly abnormal" then "slightly abnormal"
  else "inconclusive"

/-- `pd.to_numeric` on a dict value, `none` modelling a raised exception. -/
def pyToNumeric : PyVal → Option ℚ
  | .i n => some ((n : ℚ))
  | .q x => some x
  | .s s => parseNumStr s
  | .l _ => none

/-- `generator._norm_resp_rate`. -/
def _norm_resp_rate (v : PyVal) : String :=
  let t := pyLower (pyStrip (pvStr v))
  if strContains t "tachyp" then "Tachypnea"
  else if strContains t "normal" then "Normal (30-60)"
  else
    match pyToNumeric v with
    | some val => if 30 ≤ val ∧ val ≤ 60 then "Normal (30-60)" else "Tachypnea"
    | none => "Normal (30-60)"

/-- `generator._norm_heart_rate`. -/
def _norm_heart_rate (v : PyVal) : String :=
  let t := pyLower (pyStrip (pvStr v))
  if strContains t "tachy" then "Tachycardia"
  else if strContains t "normal" then "Normal"
  else
    match pyToNumeric v with
    | some val => if 100 < val then "Tachycardia" else "Normal"
    | none => "Normal"

/-- The inline Maternal/Paternal gene re-normalization of
`generator._build_input_row` (lines 192–193). -/
def _norm_gene_flag (v : PyVal) : String :=
  if pyLower (pyStrip (pvStr v)) ∈ gene_negative_tokens then "No" else "Yes"

/-! ### Feature schema (reports/generator.py) -/

/-- `generator.SYMPTOM_COLUMNS`; `chatbot_flow` repeats the identical list
verbatim (the symptom catalog of `handle_input` and of
`_map_answers_to_model_features`). -/
def SYMPTOM_COLUMNS : List String :=
  ["Cough", "Wheezing", "Frequent lung infections", "Poor growth", "Salty skin",
   "Shortness of breath", "Fatigue", "Digestive problems", "Clubbing of fingers",
   "Nasal polyps", "High blood sugar", "Excessive thirst", "Frequent urination",
   "Blurred vision", "Slow healing", "Tingling/numbness", "Weight loss",
   "Increased hunger", "Recurrent infections", "Joint pain", "Abdominal pain",
   "Liver enlargement", "Skin bronzing", "Heart problems", "Loss of libido",
   "Memory problems", "Vision loss", "Central vision defect", "Eye pain",
   "Color vision problems", "Visual hallucinations", "Difficulty reading",
   "Loss of depth perception", "Optic disc swelling", "Headaches",
   "Developmental delay", "Muscle weakness", "Vomiting", "Seizures",
   "Breathing problems", "Poor feeding", "Hypotonia", "Movement disorders",
   "Lactic acidosis", "Eye movement abnormalities", "Exercise intolerance",
   "Gastrointestinal problems", "Tremors", "Neuropathy", "Loss of motor skills",
   "Cherry-red spot", "Muscle stiffness", "Startle response",
   "Difficulty swallowing", "Poor coordination"]

/-- `generator.VALID_CLASSES`, the reference order of the three target
classes (the label encoder's sorted classes). -/
def VALID_CLASSES : List String :=
  ["Mitochondrial genetic inheritance disorders",
   "Multifactorial genetic inheritance disorders",
   "Single-gene inheritance diseases"]

/-- The single-row DataFrame built by `generator._build_input_row`: the
fixed clinical fields plus one binary flag per symptom column.  The model
keeps the named fields of the training schema; padding of extra
`feature_names` with zeros only adds columns the domain rules never read,
so the package's feature list is assumed to cover exactly this schema. -/
structure InputRow where
  patientAge : Int
  bloodCellCount : ℚ
  mothersAge : Int
  fathersAge : Int
  prevAbortions : Int
  wbcCount : ℚ
  gender : String
  birthAsphyxia : String
  autopsyBirthDefect : String
  folicAcid : String
  maternalIllness : String
  radiationExposure : String
  substanceAbuse : String
  ivf : String
  anomaliesPrev : String
  bloodTestResult : String
  respRate : String
  heartRate : String
  genesMotherSide : String
  inheritedFather : String
  maternalGene : String
  paternalGene : String
  symptoms : List (String × Int)
deriving DecidableEq

/-- The `Symptoms` entry of the user data as a Python list (default `[]`). -/
def symptomsOf (user_data : List (String × PyVal)) : List String :=
  match dictGet? user_data "Symptoms" with
  | some (.l l) => l
  | _ => []

/-- One symptom flag of `generator._build_input_row`: a direct per-symptom
entry is coerced with `int(...)` (string fallback testing membership in
`("1","yes","true","y")`), otherwise membership in the selected set. -/
def symptomFlag (user_data : List (String × PyVal)) (selected : List String)
    (s : String) : Int :=
  match dictGet? user_data s with
  | some v =>
    match pyIntOf v with
    | some n => n
    | none => if pyLower (pyStrip (pvStr v)) ∈ ["1", "yes", "true", "y"] then 1 else 0
  | none => if s ∈ selected then 1 else 0

/-- `generator._build_input_row`. -/
def _build_input_row (user_data : List (String × PyVal)) : InputRow :=
  let selected := symptomsOf user_data
  { patientAge := _coerce_int (dictGetD user_data "Patient Age" (dictGetD user_data "age" (.i 30))) 30
  , bloodCellCount := _coerce_float (dictGetD user_data "Blood cell count (mcL)" (.q (24/5))) (24/5)
  , mothersAge := _coerce_int (dictGetD user_data "Mother's age" (.i 30)) 30
  , fathersAge := _coerce_int (dictGetD user_data "Father's age" (.i 32)) 32
  , prevAbortions := _coerce_int (dictGetD user_data "No. of previous abortion" (.i 0)) 0
  , wbcCount := _coerce_float (dictGetD user_data "White Blood cell count (thousand per microliter)" (.q 7)) 7
  , gender := pvStr (dictGetD user_data "Gender" (dictGetD user_data "sex" (.s "Ambiguous")))
  , birthAsphyxia := _norm_birth_asphyxia (dictGetD user_data "Birth asphyxia" (.s "No record"))
  , autopsyBirthDefect := pvStr (dictGetD user_data "Autopsy shows birth defect (if applicable)" (dictGetD user_data "Autopsy" (.s "None")))
  , folicAcid := _norm_yes_no (dictGetD user_data "Folic acid details (peri-conceptional)" (.s "No")) "Yes" "No" "Not available"
  , maternalIllness := _norm_yes_no (dictGetD user_data "H/O serious maternal illness" (.s "No")) "Yes" "No" "Not available"
  , radiationExposure := _norm_yes_no (dictGetD user_data "H/O radiation exposure (x-ray)" (.s "No")) "Yes" "No" "Not available"
  , substanceAbuse := pvStr (dictGetD user_data "H/O substance abuse" (.s "-"))
  , ivf := _norm_yes_no (dictGetD user_data "Assisted conception IVF/ART" (.s "No")) "Yes" "No" "Not available"
  , anomaliesPrev := _norm_yes_no (dictGetD user_data "History of anomalies in previous pregnancies" (.s "No")) "Yes" "No" "Not available"
  , bloodTestResult := _norm_blood_test_result (dictGetD user_data "Blood test result" (.s "normal"))
  , respRate := _norm_resp_rate (dictGetD user_data "Respiratory Rate (breaths/min)" (.s "Normal (30-60)"))
  , heartRate := _norm_heart_rate (dictGetD user_data "Heart Rate (rates/min" (.s "Normal"))
  , genesMotherSide := _norm_yes_no (dictGetD user_data "Genes in mother's side" (.s "No")) "Yes" "No" "Not available"
  , inheritedFather := _norm_yes_no (dictGetD user_data "Inherited from father" (.s "No")) "Yes" "No" "Not available"
  , maternalGene := _norm_gene_flag (dictGetD user_data "Maternal gene" (.s "No"))
  , paternalGene := _norm_gene_flag (dictGetD user_data "Paternal gene" (.s "No"))
  , symptoms := SYMPTOM_COLUMNS.map (fun s => (s, symptomFlag user_data selected s)) }

/-! ### Domain rules and predictor (reports/generator.py) -/

/-- `int(row_dict.get(name, 0))` for a symptom flag in
`generator._apply_domain_rules`. -/
def rowFlag (row : InputRow) (name : String) : Int :=
  ((row.symptoms.find? (fun p => p.1 = name)).map (fun p => p.2)).getD 0

/-- Mitochondrial symptom cluster (`mito_syms`). -/
def mito_syms : List String :=
  ["Lactic acidosis", "Muscle weakness", "Developmental delay", "Seizures",
   "Exercise intolerance", "Eye movement abnormalities", "Neuropathy",
   "Movement disorders", "Difficulty swallowing", "Poor coordination", "Tremors"]

/-- Single-gene symptom cluster (`sg_syms`). -/
def sg_syms : List String :=
  ["Cough", "Wheezing", "Frequent lung infections", "Poor growth", "Salty skin",
   "Shortness of breath", "Digestive problems", "Clubbing of fingers", "Nasal polyps"]

/-- Multifactorial symptom cluster (`mf_syms`). -/
def mf_syms : List String :=
  ["High blood sugar", "Excessive thirst", "Frequent urination",
   "Blurred vision", "Slow healing", "Weight loss", "Increased hunger",
   "Fatigue", "Joint pain", "Heart problems"]

/-- `mito_count` of `_apply_domain_rules`. -/
def mito_count (row : InputRow) : Int := (mito_syms.map (rowFlag row)).sum

/-- `sg_count` of `_apply_domain_rules`. -/
def sg_count (row : InputRow) : Int := (sg_syms.map (rowFlag row)).sum

/-- `mf_count` of `_apply_domain_rules`. -/
def mf_count (row : InputRow) : Int := (mf_syms.map (rowFlag row)).sum

/-- `maternal_yes` of `_apply_domain_rules`. -/
def maternal_yes (row : InputRow) : Bool :=
  strStarts (pyLower row.genesMotherSide) "y" || strStarts (pyLower row.maternalGene) "y"

/-- `paternal_yes` of `_apply_domain_rules`. -/
def paternal_yes (row : InputRow) : Bool :=
  strStarts (pyLower row.inheritedFather) "y" || strStarts (pyLower row.paternalGene) "y"

/-- `p[:] = 0.05; p[idx[cls]] = 0.90` of `_apply_domain_rules`; `none`
models the `KeyError`/`IndexError` of a class missing from `class_names` or
an index beyond the probability vector. -/
def forceProb (base : List ℚ) (class_names : List String) (cls : String) : Option (List ℚ) :=
  match class_names.findIdx? (fun c => c = cls) with
  | none => none
  | some i =>
    if i < base.length then some ((base.map (fun _ => (1 : ℚ)/20)).set i (9/10))
    else none

/-- `generator._apply_domain_rules`: strict priority of the three strong
rules, then the neutral (all clusters zero) uniform spread, else the base
probabilities unchanged.  `none` models a raised exception (missing class,
short probability vector, or empty `class_names` in the uniform branch). -/
def _apply_domain_rules (row : InputRow) (base_probs : List ℚ)
    (class_names : List String) : Option (List ℚ) :=
  if maternal_yes row ∧ 3 ≤ mito_count row then
    forceProb base_probs class_names "Mitochondrial genetic inheritance disorders"
  else if paternal_yes row ∧ 3 ≤ sg_count row then
    forceProb base_probs class_names "Single-gene inheritance diseases"
  else if 4 ≤ mf_count row then
    forceProb base_probs class_names "Multifactorial genetic inheritance disorders"
  else if mito_count row = 0 ∧ sg_count row = 0 ∧ mf_count row = 0 then
    if class_names.length = 0 then none
    else some (base_probs.map (fun _ => (1 : ℚ) / (class_names.length : ℚ)))
  else some base_probs

/-- `np.argmax`: first index of the maximum (0 on the empty list, whose
python counterpart raises before this is used). -/
def listArgmax : List ℚ → Nat
  | [] => 0
  | [_] => 0
  | a :: b :: rest =>
    let j := listArgmax (b :: rest)
    if a < (b :: rest).getD j 0 then j + 1 else 0

/-- The environment a session runs in: the loaded classifier package
(`class_names` from the label encoder, `predict_proba` of the pipeline) and
the external collaborators of report generation (`report_gen` is the
outcome of `generate_custom_pdf_report`, `none` modelling a raised
exception; `session_user` is `session.get("user_id")`; `db_ok` is whether
the DB insert/commit succeeds; `path_exists` is `os.path.exists`). -/
structure Env where
  class_names : List String
  predict_proba : InputRow → List ℚ
  report_gen : Option String
  session_user : Option String
  db_ok : Bool
  path_exists : String → Bool

/-- Sentinel label of the neutral case in `predict_disorder`. -/
def no_disorder_label : String := "No Disorder / Low Risk"

/-- Final phase of `generator.predict_disorder` on the adjusted
probabilities: argmax (`np.argmax`, raising on an empty vector), headline
label and confidence, the per-class probability map, and the neutral
override to the sentinel when every adjusted probability is within 0.05 of
uniform.  `none` models a raised exception (empty vector, or a vector
shorter than `class_names`). -/
def predict_finalize (class_names : List String) (adj : List ℚ) :
    Option (String × ℚ × List (String × ℚ)) :=
  if adj.length = 0 then none
  else
    match class_names.get? (listArgmax adj) with
    | none => none
    | some lbl =>
      if class_names.length ≤ adj.length then
        if adj.all (fun p => |p - 1 / (class_names.length : ℚ)| < 1/20) then
          some (no_disorder_label, 0, class_names.enum.map (fun p => (p.2, adj.getD p.1 0)))
        else some (lbl, adj.getD (listArgmax adj) 0,
          class_names.enum.map (fun p => (p.2, adj.getD p.1 0)))
      else none

/-- `generator.predict_disorder`: build the row, score it, apply the domain
rules, and finalize.  Returns `(label, confidence, probability map)`;
`none` models a raised exception. -/
def predict_disorder (env : Env) (user_data : List (String × PyVal)) :
    Option (String × ℚ × List (String × ℚ)) :=
  let row := _build_input_row user_data
  let base_probs := env.predict_proba row
  match _apply_domain_rules row base_probs env.class_names with
  | none => none
  | some adj => predict_finalize env.class_names adj

/-! ### Report generation and final prediction (chatbot_flow) -/

/-- The `step` field of the chat state: an integer index or one of the two
string sentinels `"final_waiting"` / `"completed"`. -/
inductive StepV where
  | idx (n : Nat)
  | finalWaiting
  | completed
deriving DecidableEq

/-- `ChatbotFlow.chat_state`.  `symptom_list` is `none` while the key is
absent from the dict (a lookup then raises `KeyError`). -/
structure ChatState where
  step : StepV
  answers : List (String × PyVal)
  final_prediction : Option String
  report_pdf_path : Option String
  symptom_selection_pending : Bool
  symptom_list : Option (List String)
deriving DecidableEq

/-- The state produced by `ChatbotFlow.reset_session`. -/
def fresh_state : ChatState :=
  ⟨.idx 0, [], none, none, false, none⟩

/-- The shapes `handle_input` can return: a plain prompt string or one of
the three structured payloads. -/
inductive Resp where
  | text (s : String)
  | symptomSelection (message : String) (options : List String)
  | waitAndPredict (message : String)
  | finalResult (message : String)
deriving DecidableEq

/-- `os.path.basename` (POSIX). -/
def basename (p : String) : String :=
  ((p.splitOn "/").getLast?).getD p

/-- Two-decimal fixed rendering of a rational, modelling Python
`f"{x:.2f}"` (round half to even). -/
def fmt2dec (x : ℚ) : String :=
  let n := roundHalfEven (x * 100)
  let sign := if n < 0 then "-" else ""
  let m := n.natAbs
  let f := m % 100
  sign ++ toString (m / 100) ++ "." ++ (if f < 10 then "0" else "") ++ toString f

/-- The text stored in `final_prediction` by `ChatbotFlow._final_prediction`. -/
def final_prediction_text (pred : String) (conf : ℚ) : String :=
  "Predicted Genetic Disorder Category: " ++ pred ++ " (Confidence: "
    ++ fmt2dec (conf * 100) ++ "%)<br>"

/-- The fallback of `ChatbotFlow._report_download_message`. -/
def report_not_available : String := "<p>Report not available.</p>"

/-- The download-link HTML of `_report_download_message` (markup condensed
to one line; only the embedded basename varies). -/
def download_html (path : String) : String :=
  "<span><a href='/api/chat/report/" ++ basename path
    ++ "' target='_blank'>Download PDF Report</a></span>"
    ++ "<p style='margin-top:8px;'>This report is for educational purposes only"
    ++ " and should be reviewed with healthcare professionals.</p>"

/-- `ChatbotFlow._report_download_message`. -/
def _report_download_message (env : Env) (st : ChatState) : String :=
  match st.report_pdf_path with
  | some p => if env.path_exists p then download_html p else report_not_available
  | none => report_not_available

/-- `ChatbotFlow._generate_and_store_report`: the whole body is wrapped in
`try/except`; a failure of report generation or of the DB insert leaves
`report_pdf_path` empty, and nothing escapes. -/
def _generate_and_store_report (env : Env) (st : ChatState) : ChatState :=
  match env.report_gen with
  | none => { st with report_pdf_path := none }
  | some path =>
    match env.session_user with
    | none => { st with report_pdf_path := some path }
    | some _ =>
      if env.db_ok then { st with report_pdf_path := some path }
      else { st with report_pdf_path := none }

/-- `ChatbotFlow._map_answers_to_model_features` (its first `if` is built
from a contradictory condition and is a no-op): refresh the friendly
aliases, then add a 0/1 entry for every symptom column not already present. -/
def _map_answers_to_model_features (answers : List (String × PyVal)) : List (String × PyVal) :=
  let a := answers
  let a := dictSet a "age" (dictGetD a "age" (dictGetD a "Patient Age" (.s "")))
  let a := dictSet a "sex" (dictGetD a "sex" (dictGetD a "Gender" (.s "")))
  let a := dictSet a "family_history" (dictGetD a "family_history" (dictGetD a "Family History" (.s "")))
  let selected := symptomsOf a
  SYMPTOM_COLUMNS.foldl
    (fun acc s =>
      if (dictGet? acc s).isSome then acc
      else dictSet acc s (.i (if s ∈ selected then 1 else 0)))
    a

/-- `ChatbotFlow._final_prediction`: clear the prediction and report slots,
predict, store the prediction text, attempt report generation, and return
the text plus the download message.  A `none` second component models the
predictor raising (the partially mutated state is kept). -/
def _final_prediction (env : Env) (st : ChatState) : ChatState × Option String :=
  match predict_disorder env (_map_answers_to_model_features st.answers) with
  | none => ({ st with final_prediction := none, report_pdf_path := none }, none)
  | some (pred, conf, _) =>
    let st2 := _generate_and_store_report env
      { st with final_prediction := some (final_prediction_text pred conf),
                report_pdf_path := none }
    (st2, some (st2.final_prediction.getD "" ++ _report_download_message env st2))

/-! ### The conversation step table and handle_input (chatbot_flow) -/

/-- The step-12 lambda of `steps_map`: `max(0, int(round(extract_numeric(x))))`. -/
def abortion_mapper (x : String) : Int :=
  max 0 (roundHalfEven (extract_numeric x))

/-- The step-18 lambda of `steps_map`:
`4.8 if extract_numeric(x)==0 else float(extract_numeric(x))`. -/
def blood_cell_mapper (x : String) : ℚ :=
  if extract_numeric x = 0 then 24/5 else extract_numeric x

/-- The step-19 lambda of `steps_map`:
`7.0 if extract_numeric(x)==0 else float(extract_numeric(x))`. -/
def wbc_mapper (x : String) : ℚ :=
  if extract_numeric x = 0 then 7 else extract_numeric x

/-- `steps_map` of `ChatbotFlow.handle_input`: for each integer step the
canonical answer key, the normalizer, and the next prompt (or sentinel). -/
def steps_map : Nat → Option (String × (String → PyVal) × String)
  | 0 => some ("name", fun m => .s (extract_name m), "How old are you?")
  | 1 => some ("Patient Age", fun m => .i (extract_age m), "What is your gender? (Male / Female / Ambiguous)")
  | 2 => some ("Gender", fun m => .s (map_gender m), "Does anyone in your family have genetic health problems? (Yes / No / Not sure)")
  | 3 => some ("Family History", fun m => .s (map_binary_yes_no m), "Have there been any birth defects in your family? (If none, type 'None')")
  | 4 => some ("Autopsy shows birth defect (if applicable)", fun m => .s (map_autopsy_birth_defect m), "symptom_selection")
  | 5 => some ("History of anomalies in previous pregnancies", fun m => .s (map_binary_yes_no m), "Did you have trouble breathing when you were born? (Birth asphyxia)")
  | 6 => some ("Birth asphyxia", fun m => .s (map_birth_asphyxia m), "Did your mother have any serious illness during pregnancy?")
  | 7 => some ("H/O serious maternal illness", fun m => .s (map_binary_yes_no m), "Was your mother exposed to X-rays during pregnancy?")
  | 8 => some ("H/O radiation exposure (x-ray)", fun m => .s (map_binary_yes_no m), "Was assisted conception (IVF/ART) used?")
  | 9 => some ("Assisted conception IVF/ART", fun m => .s (map_binary_yes_no m), "How old was your mother when you were born?")
  | 10 => some ("Mother's age", fun m => .q (extract_numeric m), "How old was your father when you were born?")
  | 11 => some ("Father's age", fun m => .q (extract_numeric m), "How many previous abortions in the family?")
  | 12 => some ("No. of previous abortion", fun m => .i (abortion_mapper m), "Did your mother take folic acid or vitamins during pregnancy?")
  | 13 => some ("Folic acid details (peri-conceptional)", fun m => .s (map_binary_yes_no m), "Do you know if you inherited any genes from your mother's side?")
  | 14 => some ("Genes in mother's side", fun m => .s (map_binary_yes_no m), "Do you know if you inherited any genes from your father's side?")
  | 15 => some ("Inherited from father", fun m => .s (map_binary_yes_no m), "Any specific maternal gene detected?")
  | 16 => some ("Maternal gene", fun m => .s (map_maternal_paternal_gene m), "Any specific paternal gene detected?")
  | 17 => some ("Paternal gene", fun m => .s (map_maternal_paternal_gene m), "Do you know your blood cell count?")
  | 18 => some ("Blood cell count (mcL)", fun m => .q (blood_cell_mapper m), "Do you know your white blood cell count?")
  | 19 => some ("White Blood cell count (thousand per microliter)", fun m => .q (wbc_mapper m), "What was your recent blood test result?")
  | 20 => some ("Blood test result", fun m => .s (map_blood_test_result m), "Do you know your breathing rate?")
  | 21 => some ("Respiratory Rate (breaths/min)", fun m => .s (map_respiratory_rate m), "Do you know your heart rate?")
  | 22 => some ("Heart Rate (rates/min", fun m => .s (map_heart_rate m), "Final step")
  | _ => none

/-- The fixed prompt returned after a symptom selection (it jumps the
conversation to step 6). -/
def thank_you_prompt : String :=
  "Thank you. Did you experience trouble breathing at birth? (Birth asphyxia) (Yes / No / Not sure)"

/-- Splitter for Python `str.split(",")`: split at every comma, keeping
empty pieces. -/
def splitCommaAux : List Char → List Char → List String
  | [], acc => [String.mk acc.reverse]
  | c :: rest, acc =>
    if c = ',' then String.mk acc.reverse :: splitCommaAux rest []
    else splitCommaAux rest (c :: acc)

/-- Python `message.split(",")`. -/
def pySplitComma (s : String) : List String :=
  splitCommaAux s.toList []

/-- The attempted parse of the comma-separated 1-based picks: each token
whose stripped form passes `isdigit` is fed to `int()` and decremented (as
Python ints, so a pick of `0` becomes index `-1`).  `none` models the
`ValueError` raised by `int()` on an isdigit-true token that contains a
non-decimal digit character (e.g. "²"). -/
def parse_selection (message : String) : Option (List Int) :=
  let toks := ((pySplitComma message).filter (fun i => pyIsDigit (pyStrip i))).map pyStrip
  if toks.all (fun t => t.toList.all Char.isDigit) then
    some (toks.map (fun t => ((digitsVal t.toList : Int)) - 1))
  else none

/-- `ChatbotFlow.handle_input`.  The second component is the returned
response; `none` models an exception escaping (only possible from the
final-prediction step).  In the symptom sub-mode the `try` block can raise
in two ways, both answered by the "Invalid input" re-prompt with the state
unchanged: the `int()` call on an isdigit-true token containing a
non-decimal digit character (`parse_selection` returning `none`), and the
`symptom_list` lookup on a state missing the catalog. -/
def handle_input (env : Env) (st : ChatState) (message : String) : ChatState × Option Resp :=
  if st.symptom_selection_pending then
    match st.symptom_list with
    | none => (st, some (.text "Invalid input. Please enter numbers separated by commas."))
    | some catalog =>
      match parse_selection message with
      | none => (st, some (.text "Invalid input. Please enter numbers separated by commas."))
      | some picks =>
        let sel := picks.filter (fun i => 0 ≤ i ∧ i < (catalog.length : Int))
        let syms := sel.filterMap (fun i => catalog.get? i.toNat)
        ({ st with answers := dictSet st.answers "Symptoms" (.l syms),
                   symptom_selection_pending := false,
                   step := .idx 6 },
         some (.text thank_you_prompt))
  else
    match st.step with
    | .idx n =>
      match steps_map n with
      | some (key, mapper, next_prompt) =>
        let v := mapper message
        let ans := dictSet st.answers key v
        let ans := if key = "name" then dictSet ans "name" v else ans
        let ans := if key = "Patient Age" then dictSet ans "age" v else ans
        let ans := if key = "Gender" then dictSet ans "sex" v else ans
        let ans := if key = "Family History" then dictSet ans "family_history" v else ans
        if next_prompt = "symptom_selection" then
          ({ st with answers := ans, symptom_list := some SYMPTOM_COLUMNS,
                     symptom_selection_pending := true },
           some (.symptomSelection "Please select the symptoms you have:" SYMPTOM_COLUMNS))
        else if next_prompt = "Final step" then
          ({ st with answers := ans, step := .finalWaiting },
           some (.waitAndPredict "Please wait... Your genetic risk assessment report is being generated."))
        else
          ({ st with answers := ans, step := .idx (n + 1) }, some (.text next_prompt))
      | none => (st, some (.text "Step not found."))
    | .finalWaiting =>
      match _final_prediction env st with
      | (st', none) => (st', none)
      | (st', some txt) =>
        ({ st' with step := .completed },
         some (.finalResult ("Your comprehensive genetic risk assessment report has been generated.<br>" ++ txt)))
    | .completed => (st, some (.text "Step not found."))

/-- `ChatbotFlow.is_analysis_complete`. -/
def is_analysis_complete (st : ChatState) : Bool :=
  st.final_prediction.isSome

/-- Fold `handle_input` over a list of user messages, keeping the state. -/
def runMsgs (env : Env) (st : ChatState) (ms : List String) : ChatState :=
  ms.foldl (fun s m => (handle_input env s m).1) st

/-! ### Helper lemmas -/

theorem takeWhile_nil {p : Char → Bool} : ∀ {l : List Char}, (∀ c ∈ l, p c = false) → l.takeWhile p = []
  | [], _ => rfl
  | c :: rest, h => by
    have hc := h c (List.mem_cons_self _ _)
    simp [List.takeWhile, hc]

theorem numCore_none (l : List Char) (h : ∀ c ∈ l, c.isDigit = false) : numCore l = none := by
  unfold numCore
  rw [takeWhile_nil h]
  simp only [List.length_nil, List.drop_zero]
  have h2 : ∀ c ∈ l.tail, c.isDigit = false := fun c hc => h c (List.mem_of_mem_tail hc)
  rw [takeWhile_nil h2]
  simp

theorem matchNumAt_none (l : List Char) (h : ∀ c ∈ l, c.isDigit = false) : matchNumAt l = none := by
  have ht : ∀ c ∈ l.tail, c.isDigit = false := fun c hc => h c (List.mem_of_mem_tail hc)
  unfold matchNumAt
  split
  · exact numCore_none l.tail ht
  · split
    · rw [numCore_none l.tail ht]; rfl
    · exact numCore_none l h

theorem scanNum_none : ∀ (l : List Char), (∀ c ∈ l, c.isDigit = false) → scanNum l = none
  | [], _ => rfl
  | c :: rest, h => by
    unfold scanNum
    rw [matchNumAt_none (c :: rest) h]
    exact scanNum_none rest (fun x hx => h x (List.mem_cons_of_mem _ hx))

theorem extract_numeric_no_digit (t : String) (h : ∀ c ∈ t.toList, c.isDigit = false) :
    extract_numeric t = 0 := by
  unfold extract_numeric
  rw [scanNum_none t.toList h]
  rfl

theorem findAge_none : ∀ (l : List Char) (b : Bool), (∀ c ∈ l, c.isDigit = false) → findAge l b = none
  | [], _, _ => rfl
  | c :: rest, b, h => by
    unfold findAge
    have hc := h c (List.mem_cons_self _ _)
    simp only [hc, Bool.false_and, Bool.false_eq_true, if_false]
    exact findAge_none rest (isWordC c) (fun x hx => h x (List.mem_cons_of_mem _ hx))

theorem extract_age_no_digit (t : String) (h : ∀ c ∈ t.toList, c.isDigit = false) :
    extract_age t = 0 := by
  unfold extract_age
  rw [findAge_none t.toList false h]
  rfl

theorem digit_toNat_le {c : Char} (h : c.isDigit = true) : c.toNat - 48 ≤ 9 := by
  simp only [Char.isDigit, Bool.and_eq_true, decide_eq_true_eq] at h
  obtain ⟨h1, h2⟩ := h
  have h2' : c.val.toNat ≤ 57 := h2
  have he : c.toNat = c.val.toNat := rfl
  omega

theorem digitsVal_aux_lt : ∀ (ds : List Char) (a : Nat), (∀ c ∈ ds, c.isDigit = true) →
    ds.foldl (fun a c => a * 10 + (c.toNat - 48)) a < (a + 1) * 10 ^ ds.length
  | [], a, _ => by simp
  | c :: rest, a, h => by
    have hd : c.toNat - 48 ≤ 9 := digit_toNat_le (h c (List.mem_cons_self _ _))
    have ih := digitsVal_aux_lt rest (a * 10 + (c.toNat - 48))
      (fun x hx => h x (List.mem_cons_of_mem _ hx))
    have hstep : (a * 10 + (c.toNat - 48) + 1) * 10 ^ rest.length ≤ (a + 1) * 10 ^ (rest.length + 1) := by
      have hle : a * 10 + (c.toNat - 48) + 1 ≤ (a + 1) * 10 := by omega
      calc (a * 10 + (c.toNat - 48) + 1) * 10 ^ rest.length
          ≤ ((a + 1) * 10) * 10 ^ rest.length := Nat.mul_le_mul_right _ hle
        _ = (a + 1) * 10 ^ (rest.length + 1) := by ring
    calc (c :: rest).foldl (fun a c => a * 10 + (c.toNat - 48)) a
        = rest.foldl (fun a c => a * 10 + (c.toNat - 48)) (a * 10 + (c.toNat - 48)) := rfl
      _ < (a * 10 + (c.toNat - 48) + 1) * 10 ^ rest.length := ih
      _ ≤ (a + 1) * 10 ^ (rest.length + 1) := hstep
      _ = (a + 1) * 10 ^ (c :: rest).length := by simp

theorem digitsVal_lt (ds : List Char) (h : ∀ c ∈ ds, c.isDigit = true) :
    digitsVal ds < 10 ^ ds.length := by
  have := digitsVal_aux_lt ds 0 h
  simpa [digitsVal] using this

theorem findAge_lt : ∀ (l : List Char) (b : Bool) (v : Nat), findAge l b = some v → v < 1000
  | [], _, _, h => by simp [findAge] at h
  | c :: rest, b, v, h => by
    unfold findAge at h
    split at h
    · split at h
      · next hr =>
        obtain ⟨hlen, _⟩ := Bool.and_eq_true _ _ ▸ hr
        have hlen' : (List.takeWhile Char.isDigit (c :: rest)).length ≤ 3 :=
          of_decide_eq_true hlen
        have hdig : ∀ x ∈ List.takeWhile Char.isDigit (c :: rest), x.isDigit = true :=
          fun x hx => List.mem_takeWhile_imp hx
        have hv : digitsVal (List.takeWhile Char.isDigit (c :: rest)) = v :=
          Option.some.inj h
        have hbound := digitsVal_lt _ hdig
        have hpow : (10 : Nat) ^ (List.takeWhile Char.isDigit (c :: rest)).length ≤ 10 ^ 3 :=
          Nat.pow_le_pow_right (by norm_num) hlen'
        omega
      · exact findAge_lt rest (isWordC c) v h
    · exact findAge_lt rest (isWordC c) v h

theorem extract_age_lt (t : String) : extract_age t < 1000 := by
  unfold extract_age
  cases hf : findAge t.toList false with
  | none => simp
  | some v => simpa using findAge_lt t.toList false v hf

theorem dictGet_set (d : List (String × PyVal)) (k : String) (v : PyVal) :
    dictGet? (dictSet d k v) k = some v := by
  induction d with
  | nil => simp [dictSet, dictGet?, List.find?]
  | cons a d ih =>
    by_cases pa : a.1 = k
    · simp [dictSet, dictGet?, List.find?, pa]
    · by_cases pd : d.any (fun p => p.1 = k)
      · have hcond : (a :: d).any (fun p => p.1 = k) = true := by simp [List.any_cons, pd]
        have ih' := ih
        simp only [dictSet, pd, if_pos] at ih'
        simp only [dictSet, hcond, if_pos, List.map_cons, dictGet?, List.find?, pa,
          if_neg, decide_eq_true_eq]
        simpa [dictGet?, pa] using ih'
      · have hcond : (a :: d).any (fun p => p.1 = k) = false := by simp [List.any_cons, pd, pa]
        have ih' := ih
        simp only [dictSet, pd, if_neg, Bool.false_eq_true, not_false_iff] at ih'
        simp only [dictSet, hcond, Bool.false_eq_true, if_neg, not_false_iff,
          List.cons_append, dictGet?, List.find?, pa, decide_eq_true_eq]
        simpa [dictGet?] using ih'

theorem norm_yes_no_range (t : String) : norm_yes_no t ∈ ["yes", "no", "not sure"] := by
  simp only [norm_yes_no]
  split
  · simp
  · split <;> simp

theorem map_gender_range (t : String) : map_gender t ∈ ["Male", "Female", "Ambiguous"] := by
  simp only [map_gender]
  split
  · simp
  · split <;> simp

theorem map_binary_yes_no_range (t : String) : map_binary_yes_no t ∈ ["Yes", "No"] := by
  simp only [map_binary_yes_no]
  split <;> simp

theorem map_birth_asphyxia_range (t : String) :
    map_birth_asphyxia t ∈ ["Yes", "No record", "Not available"] := by
  simp only [map_birth_asphyxia]
  split
  · simp
  · split <;> simp

theorem map_autopsy_range (t : String) : map_autopsy_birth_defect t ∈ ["None", "Yes"] := by
  simp only [map_autopsy_birth_defect]
  split <;> simp

theorem map_gene_range (t : String) : map_maternal_paternal_gene t ∈ ["Yes", "No"] := by
  simp only [map_maternal_paternal_gene]
  split <;> simp

theorem map_blood_test_range (t : String) :
    map_blood_test_result t ∈ ["normal", "slightly abnormal", "inconclusive"] := by
  simp only [map_blood_test_result]
  split
  · simp
  · split <;> simp

theorem map_resp_range (t : String) :
    map_respiratory_rate t ∈ ["Tachypnea", "Normal (30-60)"] := by
  simp only [map_respiratory_rate]
  split
  · simp
  · split
    · simp
    · split
      · split <;> simp
      · simp

theorem map_heart_range (t : String) : map_heart_rate t ∈ ["Tachycardia", "Normal"] := by
  simp only [map_heart_rate]
  split
  · simp
  · split
    · simp
    · split
      · split <;> simp
      · simp

theorem gene_tokens_iff (s : String) :
    s ∈ gene_negative_tokens ↔
      ((s ∈ autopsy_negative_tokens ∧ s ≠ "not applicable")
        ∨ s ∈ (["not detected", "null", "", "not sure"] : List String)) := by
  constructor
  · intro h
    simp only [gene_negative_tokens, List.mem_cons, List.not_mem_nil, or_false] at h
    rcases h with rfl | rfl | rfl | rfl | rfl | rfl | rfl | rfl | rfl | rfl | rfl <;> decide
  · intro h
    rcases h with ⟨ha, hne⟩ | hm
    · simp only [autopsy_negative_tokens, List.mem_cons, List.not_mem_nil, or_false] at ha
      rcases ha with rfl | rfl | rfl | rfl | rfl | rfl | rfl | rfl
      all_goals first
        | decide
        | exact absurd rfl hne
    · simp only [List.mem_cons, List.not_mem_nil, or_false] at hm
      rcases hm with rfl | rfl | rfl | rfl <;> decide

/-- C6 counterexample: the claim includes "not applicable" (inherited from
the autopsy negative-token set) among the inputs mapped to "No", but
`map_maternal_paternal_gene` maps it to "Yes" — its token list drops
"not applicable". -/
theorem gene_negative_set_counterexample :
    map_maternal_paternal_gene "not applicable" = "Yes"
    ∧ map_maternal_paternal_gene "not applicable" ≠ "No" := by
  constructor <;> decide

/-- C6 (amended): the maternal/paternal gene normalizer maps exactly the
autopsy negative-token set *minus* "not applicable", extended with
"not detected", "null", the empty string and "not sure", to "No", and every
other input to "Yes". -/
theorem gene_negative_set_amended (t : String) :
    (map_maternal_paternal_gene t = "No" ↔
      ((pyLower (pyStrip t) ∈ autopsy_negative_tokens ∧ pyLower (pyStrip t) ≠ "not applicable")
        ∨ pyLower (pyStrip t) ∈ (["not detected", "null", "", "not sure"] : List String)))
    ∧ (map_maternal_paternal_gene t = "No" ∨ map_maternal_paternal_gene t = "Yes") := by
  have base := gene_tokens_iff (pyLower (pyStrip t))
  constructor
  · simp only [map_maternal_paternal_gene]
    split
    · next h => exact ⟨fun _ => base.mp h, fun _ => rfl⟩
    · next h =>
      constructor
      · intro hno; exact absurd hno (by decide)
      · intro hr; exact absurd (base.mpr hr) h
  · have := map_gene_range t
    simp only [List.mem_cons, List.not_mem_nil, or_false] at this
    tauto

theorem roundHalfEven_zero : roundHalfEven 0 = 0 := by
  unfold roundHalfEven
  norm_num

theorem extract_numeric_lit_zero : extract_numeric "0" = 0 := by decide

/-- C7: every step-bound normalizer is total with a canonical range —
each categorical normalizer lands in its fixed value set, the numeric
extractors are bounded (`extract_age < 1000`, abortion count nonnegative),
and unparseable input (no digit at all) yields the documented defaults. -/
theorem normalizers_total_range (t : String) :
    norm_yes_no t ∈ ["yes", "no", "not sure"]
    ∧ map_gender t ∈ ["Male", "Female", "Ambiguous"]
    ∧ map_binary_yes_no t ∈ ["Yes", "No"]
    ∧ map_birth_asphyxia t ∈ ["Yes", "No record", "Not available"]
    ∧ map_autopsy_birth_defect t ∈ ["None", "Yes"]
    ∧ map_maternal_paternal_gene t ∈ ["Yes", "No"]
    ∧ map_blood_test_result t ∈ ["normal", "slightly abnormal", "inconclusive"]
    ∧ map_respiratory_rate t ∈ ["Tachypnea", "Normal (30-60)"]
    ∧ map_heart_rate t ∈ ["Tachycardia", "Normal"]
    ∧ 0 ≤ abortion_mapper t
    ∧ extract_age t < 1000
    ∧ ((∀ c ∈ t.toList, c.isDigit = false) →
        extract_numeric t = 0 ∧ extract_age t = 0 ∧ abortion_mapper t = 0
        ∧ blood_cell_mapper t = 24/5 ∧ wbc_mapper t = 7) := by
  refine ⟨norm_yes_no_range t, map_gender_range t, map_binary_yes_no_range t,
    map_birth_asphyxia_range t, map_autopsy_range t, map_gene_range t,
    map_blood_test_range t, map_resp_range t, map_heart_range t,
    le_max_left 0 _, extract_age_lt t, ?_⟩
  intro h
  have hn := extract_numeric_no_digit t h
  have ha := extract_age_no_digit t h
  refine ⟨hn, ha, ?_, ?_, ?_⟩
  · simp [abortion_mapper, hn, roundHalfEven_zero]
  · simp [blood_cell_mapper, hn]
  · simp [wbc_mapper, hn]

/-- C7 witness: the theorem instantiated at the digit-free input "hello". -/
theorem normalizers_total_range_witness :
    map_gender "hello" ∈ ["Male", "Female", "Ambiguous"]
    ∧ extract_numeric "hello" = 0 ∧ blood_cell_mapper "hello" = 24/5 := by
  obtain ⟨-, h2, -, -, -, -, -, -, -, -, -, h12⟩ := normalizers_total_range "hello"
  obtain ⟨hn, -, -, hb, -⟩ := h12 (by decide)
  exact ⟨h2, hn, hb⟩

/-- C10: the stored blood-cell and white-blood-cell counts are never 0 —
whenever the extracted numeric value is 0 (including the literal answer "0"
and digit-free answers such as "no"), the step-18/19 lambdas store the
defaults 4.8 and 7.0 instead. -/
theorem cell_count_never_zero (t : String) :
    blood_cell_mapper t ≠ 0 ∧ wbc_mapper t ≠ 0
    ∧ (extract_numeric t = 0 → blood_cell_mapper t = 24/5 ∧ wbc_mapper t = 7)
    ∧ blood_cell_mapper "0" = 24/5 ∧ wbc_mapper "0" = 7
    ∧ blood_cell_mapper "no" = 24/5 ∧ wbc_mapper "no" = 7 := by
  have hno : extract_numeric "no" = 0 :=
    extract_numeric_no_digit "no" (by decide)
  refine ⟨?_, ?_, ?_,
    by simp [blood_cell_mapper, extract_numeric_lit_zero],
    by simp [wbc_mapper, extract_numeric_lit_zero],
    by simp [blood_cell_mapper, hno],
    by simp [wbc_mapper, hno]⟩
  · by_cases h : extract_numeric t = 0
    · simp [blood_cell_mapper, h]
    · simp [blood_cell_mapper, h]
  · by_cases h : extract_numeric t = 0
    · simp [wbc_mapper, h]
    · simp [wbc_mapper, h]
  · intro h
    constructor
    · simp [blood_cell_mapper, h]
    · simp [wbc_mapper, h]

/-- C10 witness: the theorem instantiated at the literal answer "0". -/
theorem cell_count_never_zero_witness :
    extract_numeric "0" = 0 ∧ blood_cell_mapper "0" = 24/5 ∧ wbc_mapper "0" = 7 := by
  obtain ⟨-, -, h3, -⟩ := cell_count_never_zero "0"
  have h0 : extract_numeric "0" = 0 := by decide
  exact ⟨h0, h3 h0⟩

/-- C2 counterexample: assembly-time re-normalization is not idempotent on
Birth asphyxia — the capture value of the answer "no" is "No record", which
the assembler re-normalizes to "Not available". -/
theorem renormalization_idempotent_counterexample :
    map_birth_asphyxia "no" = "No record"
    ∧ _norm_birth_asphyxia (.s (map_birth_asphyxia "no")) = "Not available"
    ∧ _norm_birth_asphyxia (.s (map_birth_asphyxia "no")) ≠ map_birth_asphyxia "no"
    ∧ (_build_input_row [("Birth asphyxia", .s (map_birth_asphyxia "no"))]).birthAsphyxia
        ≠ map_birth_asphyxia "no" := by
  refine ⟨by decide, by decide, by decide, by decide⟩

/-- C2 (amended): assembly-time re-normalization is idempotent on every
re-normalized categorical field except Birth asphyxia: the yes/no fields,
blood test, respiratory rate, heart rate and the maternal/paternal gene
flags are fixed by the assembler's normalizers, while a captured
"No record" for Birth asphyxia is re-normalized to "Not available" (its
other two values are fixed). -/
theorem renormalization_idempotent_amended (t : String) :
    _norm_yes_no (.s (map_binary_yes_no t)) "Yes" "No" "Not available" = map_binary_yes_no t
    ∧ _norm_blood_test_result (.s (map_blood_test_result t)) = map_blood_test_result t
    ∧ _norm_resp_rate (.s (map_respiratory_rate t)) = map_respiratory_rate t
    ∧ _norm_heart_rate (.s (map_heart_rate t)) = map_heart_rate t
    ∧ _norm_gene_flag (.s (map_maternal_paternal_gene t)) = map_maternal_paternal_gene t
    ∧ _norm_birth_asphyxia (.s (map_birth_asphyxia t)) =
        (if map_birth_asphyxia t = "No record" then "Not available" else map_birth_asphyxia t)
    ∧ (_build_input_row [("Birth asphyxia", .s (map_birth_asphyxia t))]).birthAsphyxia =
        (if map_birth_asphyxia t = "No record" then "Not available" else map_birth_asphyxia t) := by
  have hba : (_build_input_row [("Birth asphyxia", .s (map_birth_asphyxia t))]).birthAsphyxia
      = _norm_birth_asphyxia (.s (map_birth_asphyxia t)) := by
    simp only [_build_input_row, dictGetD, dictGet?, List.find?]
    norm_num
  refine ⟨?_, ?_, ?_, ?_, ?_, ?_, ?_⟩
  · have h := map_binary_yes_no_range t
    simp only [List.mem_cons, List.not_mem_nil, or_false] at h
    rcases h with h | h <;> rw [h] <;> decide
  · have h := map_blood_test_range t
    simp only [List.mem_cons, List.not_mem_nil, or_false] at h
    rcases h with h | h | h <;> rw [h] <;> decide
  · have h := map_resp_range t
    simp only [List.mem_cons, List.not_mem_nil, or_false] at h
    rcases h with h | h <;> rw [h] <;> decide
  · have h := map_heart_range t
    simp only [List.mem_cons, List.not_mem_nil, or_false] at h
    rcases h with h | h <;> rw [h] <;> decide
  · have h := map_gene_range t
    simp only [List.mem_cons, List.not_mem_nil, or_false] at h
    rcases h with h | h <;> rw [h] <;> decide
  · have h := map_birth_asphyxia_range t
    simp only [List.mem_cons, List.not_mem_nil, or_false] at h
    rcases h with h | h | h <;> rw [h] <;> decide
  · rw [hba]
    have h := map_birth_asphyxia_range t
    simp only [List.mem_cons, List.not_mem_nil, or_false] at h
    rcases h with h | h | h <;> rw [h] <;> decide
theorem argmax_lt : ∀ (l : List ℚ), l ≠ [] → listArgmax l < l.length := by
  intro l hl
  induction l with
  | nil => exact absurd rfl hl
  | cons a t ih =>
    cases t with
    | nil => simp [listArgmax]
    | cons b r =>
      have h := ih (by simp)
      simp only [listArgmax]
      split
      · simpa using Nat.succ_lt_succ h
      · simp

theorem finalize_mito :
    predict_finalize VALID_CLASSES [9/10, 1/20, 1/20] =
      some ("Mitochondrial genetic inheritance disorders", 9/10,
        [("Mitochondrial genetic inheritance disorders", 9/10),
         ("Multifactorial genetic inheritance disorders", 1/20),
         ("Single-gene inheritance diseases", 1/20)]) := by
  have harg : listArgmax [9/10, 1/20, 1/20] = (0 : Nat) := by
    norm_num [listArgmax, List.getD]
  norm_num [predict_finalize, harg, VALID_CLASSES, List.enum, List.getD, no_disorder_label]
  intro h
  rw [abs_of_nonneg (by norm_num)] at h
  norm_num at h

theorem finalize_neutral :
    predict_finalize VALID_CLASSES [1/3, 1/3, 1/3] =
      some (no_disorder_label, 0,
        [("Mitochondrial genetic inheritance disorders", 1/3),
         ("Multifactorial genetic inheritance disorders", 1/3),
         ("Single-gene inheritance diseases", 1/3)]) := by
  have harg : listArgmax [1/3, 1/3, 1/3] = (0 : Nat) := by
    norm_num [listArgmax, List.getD]
  norm_num [predict_finalize, harg, VALID_CLASSES, List.enum, List.getD, no_disorder_label]

theorem rules_mito (row : InputRow) (a b c : ℚ)
    (hm : maternal_yes row = true) (hc : 3 ≤ mito_count row) :
    _apply_domain_rules row [a, b, c] VALID_CLASSES = some [9/10, 1/20, 1/20] := by
  unfold _apply_domain_rules
  rw [if_pos ⟨hm, hc⟩]
  unfold forceProb
  rw [show VALID_CLASSES.findIdx?
      (fun c => c = "Mitochondrial genetic inheritance disorders") = some 0 from by decide]
  simp

theorem rules_neutral (row : InputRow) (a b c : ℚ)
    (h0 : mito_count row = 0) (h1 : sg_count row = 0) (h2 : mf_count row = 0) :
    _apply_domain_rules row [a, b, c] VALID_CLASSES = some [1/3, 1/3, 1/3] := by
  unfold _apply_domain_rules
  have n1 : ¬(maternal_yes row = true ∧ 3 ≤ mito_count row) := by
    rintro ⟨-, h⟩; rw [h0] at h; norm_num at h
  have n2 : ¬(paternal_yes row = true ∧ 3 ≤ sg_count row) := by
    rintro ⟨-, h⟩; rw [h1] at h; norm_num at h
  have n3 : ¬(4 ≤ mf_count row) := by
    rw [h2]; norm_num
  rw [if_neg n1, if_neg n2, if_neg n3, if_pos ⟨h0, h1, h2⟩,
    if_neg (by decide : ¬VALID_CLASSES.length = 0)]
  norm_num [VALID_CLASSES]

/-- C3: on every assembled feature row whose maternal-lineage flag is set
(Genes in mother's side or Maternal gene is "Yes") and whose mitochondrial
symptom-cluster count is at least 3, `predict_disorder` (with the three
reference classes) returns the mitochondrial label with confidence 0.90 and
the adjusted distribution putting 0.90 on the mitochondrial class and 0.05
on each of the other two, regardless of the raw model probabilities. -/
theorem predict_mito_rule (env : Env) (data : List (String × PyVal))
    (hc : env.class_names = VALID_CLASSES)
    (hl : (env.predict_proba (_build_input_row data)).length = 3)
    (hm : (_build_input_row data).genesMotherSide = "Yes"
        ∨ (_build_input_row data).maternalGene = "Yes")
    (hcount : 3 ≤ mito_count (_build_input_row data)) :
    predict_disorder env data =
      some ("Mitochondrial genetic inheritance disorders", 9/10,
        [("Mitochondrial genetic inheritance disorders", 9/10),
         ("Multifactorial genetic inheritance disorders", 1/20),
         ("Single-gene inheritance diseases", 1/20)]) := by
  obtain ⟨a, b, c, hb⟩ := List.length_eq_three.mp hl
  have hmy : maternal_yes (_build_input_row data) = true := by
    rcases hm with h | h
    · unfold maternal_yes
      rw [h, show strStarts (pyLower "Yes") "y" = true from by decide]
      simp
    · unfold maternal_yes
      rw [h, show strStarts (pyLower "Yes") "y" = true from by decide]
      simp
  simp only [predict_disorder]
  rw [hc, hb, rules_mito _ a b c hmy hcount]
  exact finalize_mito

theorem finalize_some (adj : List ℚ) (h3 : adj.length = 3) :
    ∃ r, predict_finalize VALID_CLASSES adj = some r := by
  unfold predict_finalize
  rw [if_neg (by rw [h3]; norm_num)]
  have hne : adj ≠ [] := by
    intro h; rw [h] at h3; simp at h3
  have htop : listArgmax adj < VALID_CLASSES.length := by
    rw [show VALID_CLASSES.length = 3 from rfl, ← h3]
    exact argmax_lt adj hne
  split
  · next hnone =>
    rw [List.get?_eq_none] at hnone
    omega
  · next lbl hlbl =>
    rw [if_pos (by rw [h3]; decide : VALID_CLASSES.length ≤ adj.length)]
    split
    · exact ⟨_, rfl⟩
    · exact ⟨_, rfl⟩

theorem rules_some (row : InputRow) (a b c : ℚ) :
    ∃ adj, _apply_domain_rules row [a, b, c] VALID_CLASSES = some adj ∧ adj.length = 3 := by
  unfold _apply_domain_rules forceProb
  split
  · split
    · next hnone => exact absurd hnone (by decide)
    · next i hi =>
      have : i = 0 := by
        have h0 : VALID_CLASSES.findIdx?
            (fun c => c = "Mitochondrial genetic inheritance disorders") = some 0 := by decide
        exact Option.some.inj (hi ▸ h0)
      subst this
      exact ⟨_, by rw [if_pos (by norm_num : (0:Nat) < [a,b,c].length)], by simp⟩
  · split
    · split
      · next hnone => exact absurd hnone (by decide)
      · next i hi =>
        have : i = 2 := by
          have h0 : VALID_CLASSES.findIdx?
              (fun c => c = "Single-gene inheritance diseases") = some 2 := by decide
          exact Option.some.inj (hi ▸ h0)
        subst this
        exact ⟨_, by rw [if_pos (by norm_num : (2:Nat) < [a,b,c].length)], by simp⟩
    · split
      · split
        · next hnone => exact absurd hnone (by decide)
        · next i hi =>
          have : i = 1 := by
            have h0 : VALID_CLASSES.findIdx?
                (fun c => c = "Multifactorial genetic inheritance disorders") = some 1 := by decide
            exact Option.some.inj (hi ▸ h0)
          subst this
          exact ⟨_, by rw [if_pos (by norm_num : (1:Nat) < [a,b,c].length)], by simp⟩
      · split
        · rw [if_neg (by decide : ¬VALID_CLASSES.length = 0)]
          exact ⟨_, rfl, by simp⟩
        · exact ⟨[a, b, c], rfl, rfl⟩

theorem predict_total (env : Env) (data : List (String × PyVal))
    (hc : env.class_names = VALID_CLASSES)
    (hl : (env.predict_proba (_build_input_row data)).length = 3) :
    ∃ r, predict_disorder env data = some r := by
  obtain ⟨a, b, c, hb⟩ := List.length_eq_three.mp hl
  simp only [predict_disorder]
  rw [hc, hb]
  obtain ⟨adj, hr, h3⟩ := rules_some (_build_input_row data) a b c
  rw [hr]
  exact finalize_some adj h3

theorem predict_neutral_core (env : Env) (data : List (String × PyVal))
    (hc : env.class_names = VALID_CLASSES)
    (hl : (env.predict_proba (_build_input_row data)).length = 3)
    (h0 : mito_count (_build_input_row data) = 0)
    (h1 : sg_count (_build_input_row data) = 0)
    (h2 : mf_count (_build_input_row data) = 0) :
    predict_disorder env data =
      some (no_disorder_label, 0,
        [("Mitochondrial genetic inheritance disorders", 1/3),
         ("Multifactorial genetic inheritance disorders", 1/3),
         ("Single-gene inheritance diseases", 1/3)]) := by
  obtain ⟨a, b, c, hb⟩ := List.length_eq_three.mp hl
  simp only [predict_disorder]
  rw [hc, hb, rules_neutral _ a b c h0 h1 h2]
  exact finalize_neutral

/-- C4: on every assembled feature row whose three symptom-cluster counts
are all zero, `predict_disorder` (with the three reference classes)
replaces the model distribution by the uniform 1/3 distribution and
returns the sentinel "No Disorder / Low Risk" with confidence 0.0,
regardless of the raw model probabilities. -/
theorem predict_neutral_rule (env : Env) (data : List (String × PyVal))
    (hc : env.class_names = VALID_CLASSES)
    (hl : (env.predict_proba (_build_input_row data)).length = 3)
    (h0 : mito_count (_build_input_row data) = 0)
    (h1 : sg_count (_build_input_row data) = 0)
    (h2 : mf_count (_build_input_row data) = 0) :
    predict_disorder env data =
      some (no_disorder_label, 0,
        [("Mitochondrial genetic inheritance disorders", 1/3),
         ("Multifactorial genetic inheritance disorders", 1/3),
         ("Single-gene inheritance diseases", 1/3)]) :=
  predict_neutral_core env data hc hl h0 h1 h2

/-- A reference environment: the three training classes, a model that
always answers the uniform distribution, report generation unavailable,
no logged-in user. -/
def envRef : Env :=
  ⟨VALID_CLASSES, fun _ => [1/3, 1/3, 1/3], none, none, true, fun _ => false⟩

/-- Answers selecting three mitochondrial-cluster symptoms with the
maternal-lineage flag set. -/
def mito_demo_data : List (String × PyVal) :=
  [("Genes in mother's side", .s "yes"),
   ("Symptoms", .l ["Lactic acidosis", "Muscle weakness", "Seizures"])]

/-- C3 witness: the rule fires on a concrete three-symptom maternal row. -/
theorem predict_mito_rule_witness :
    3 ≤ mito_count (_build_input_row mito_demo_data)
    ∧ predict_disorder envRef mito_demo_data =
      some ("Mitochondrial genetic inheritance disorders", 9/10,
        [("Mitochondrial genetic inheritance disorders", 9/10),
         ("Multifactorial genetic inheritance disorders", 1/20),
         ("Single-gene inheritance diseases", 1/20)]) :=
  ⟨by decide,
   predict_mito_rule envRef mito_demo_data rfl rfl (Or.inl (by decide)) (by decide)⟩

/-- C4 witness: the neutral rule fires on the empty answer set. -/
theorem predict_neutral_rule_witness :
    (mito_count (_build_input_row []) = 0 ∧ sg_count (_build_input_row []) = 0
      ∧ mf_count (_build_input_row []) = 0)
    ∧ predict_disorder envRef [] =
      some (no_disorder_label, 0,
        [("Mitochondrial genetic inheritance disorders", 1/3),
         ("Multifactorial genetic inheritance disorders", 1/3),
         ("Single-gene inheritance diseases", 1/3)]) :=
  ⟨⟨by decide, by decide, by decide⟩,
   predict_neutral_rule envRef [] rfl rfl (by decide) (by decide) (by decide)⟩

theorem gen_report_final_pred (env : Env) (st : ChatState) :
    (_generate_and_store_report env st).final_prediction = st.final_prediction := by
  unfold _generate_and_store_report
  split
  · rfl
  · split
    · rfl
    · split <;> rfl

/-- C9: if report generation raises after a successful prediction, the
failure is recovered locally — the report path is left empty, no exception
escapes `_final_prediction`, and the prediction text (label and confidence)
is still returned together with the "Report not available." notice. -/
theorem report_failure_recovered (env : Env) (st : ChatState) (pred : String) (conf : ℚ)
    (pm : List (String × ℚ))
    (hgen : env.report_gen = none)
    (hpred : predict_disorder env (_map_answers_to_model_features st.answers)
        = some (pred, conf, pm)) :
    (_final_prediction env st).1.report_pdf_path = none
    ∧ (_final_prediction env st).1.final_prediction = some (final_prediction_text pred conf)
    ∧ (_final_prediction env st).2
        = some (final_prediction_text pred conf ++ report_not_available) := by
  unfold _final_prediction
  rw [hpred]
  simp only [_generate_and_store_report, hgen]
  simp [_report_download_message, report_not_available]

/-- C9 witness: the reference environment (whose report generator fails)
still returns the prediction text with the "report not available" notice. -/
theorem report_failure_recovered_witness :
    envRef.report_gen = none
    ∧ (_final_prediction envRef fresh_state).1.report_pdf_path = none
    ∧ (_final_prediction envRef fresh_state).2
        = some (final_prediction_text no_disorder_label 0 ++ report_not_available) := by
  have hpred := predict_neutral_core envRef
    (_map_answers_to_model_features fresh_state.answers) rfl rfl
    (by decide) (by decide) (by decide)
  have h := report_failure_recovered envRef fresh_state no_disorder_label 0 _ rfl hpred
  exact ⟨rfl, h.1, h.2.2⟩

theorem hi_pick (env : Env) (st : ChatState) (m : String) (cat : List String)
    (picks : List Int)
    (hp : st.symptom_selection_pending = true)
    (hl : st.symptom_list = some cat)
    (hparse : parse_selection m = some picks) :
    (handle_input env st m).1.step = .idx 6
    ∧ (handle_input env st m).1.symptom_selection_pending = false
    ∧ (handle_input env st m).1.final_prediction = st.final_prediction
    ∧ (handle_input env st m).1.symptom_list = st.symptom_list
    ∧ (handle_input env st m).1.answers = dictSet st.answers "Symptoms"
        (.l ((picks.filter (fun i => 0 ≤ i ∧ i < (cat.length : Int))).filterMap
          (fun i => cat.get? i.toNat)))
    ∧ (handle_input env st m).2 = some (.text thank_you_prompt) := by
  simp [handle_input, hp, hl, hparse]

/-- A reachable state in symptom-selection mode: step 4 answered, catalog
populated, flag set. -/
def pending_state : ChatState :=
  ⟨.idx 4, [], none, none, true, some SYMPTOM_COLUMNS⟩

/-- C1 counterexample: a message with no digit tokens does NOT leave the
state unchanged and does NOT re-prompt — `int()` is never reached, the
parse succeeds with an empty selection, and the code stores an empty
symptom list, clears the pending flag, jumps to step 6 and returns the
step-6 prompt. -/
theorem symptom_parse_failure_counterexample :
    parse_selection "hello" = some []
    ∧ (handle_input envRef pending_state "hello").1.symptom_selection_pending = false
    ∧ (handle_input envRef pending_state "hello").1.step = .idx 6
    ∧ dictGet? (handle_input envRef pending_state "hello").1.answers "Symptoms" = some (.l [])
    ∧ (handle_input envRef pending_state "hello").2 = some (.text thank_you_prompt)
    ∧ thank_you_prompt ≠ "Invalid input. Please enter numbers separated by commas." := by
  refine ⟨by decide, by decide, by decide, by decide, by decide, by decide⟩

/-- C1 (amended): while the pending flag is set and a symptom catalog is
present, an input from which no valid integer selections are extracted
because no token passes `isdigit` (e.g. plain text such as "hello") does
NOT leave the state unchanged and is NOT re-prompted: the parse succeeds
with an empty selection, so an empty Symptoms list is stored, the flag is
cleared, the step becomes 6 and the step-6 prompt is returned.  The
"Invalid input" re-prompt with unchanged state occurs exactly when the
`try` block raises: an isdigit-true token that `int()` rejects (such as
"²"), or a missing symptom catalog. -/
theorem symptom_parse_failure_amended (env : Env) (st : ChatState) (m : String)
    (hp : st.symptom_selection_pending = true) :
    (∀ cat, st.symptom_list = some cat →
      (∀ picks, parse_selection m = some picks →
        (handle_input env st m).1.symptom_selection_pending = false
        ∧ (handle_input env st m).1.step = .idx 6
        ∧ dictGet? (handle_input env st m).1.answers "Symptoms"
            = some (.l ((picks.filter
                (fun i => 0 ≤ i ∧ i < (cat.length : Int))).filterMap
                (fun i => cat.get? i.toNat)))
        ∧ (picks = [] →
            dictGet? (handle_input env st m).1.answers "Symptoms" = some (.l []))
        ∧ (handle_input env st m).2 = some (.text thank_you_prompt))
      ∧ (parse_selection m = none →
          (handle_input env st m).1 = st
          ∧ (handle_input env st m).2
              = some (.text "Invalid input. Please enter numbers separated by commas.")))
    ∧ (st.symptom_list = none →
        (handle_input env st m).1 = st
        ∧ (handle_input env st m).2
            = some (.text "Invalid input. Please enter numbers separated by commas.")) := by
  refine ⟨fun cat hl => ⟨fun picks hparse => ?_, fun hnone => ?_⟩, fun hl => ?_⟩
  · have h := hi_pick env st m cat picks hp hl hparse
    refine ⟨h.2.1, h.1, ?_, ?_, h.2.2.2.2.2⟩
    · rw [h.2.2.2.2.1]
      exact dictGet_set _ _ _
    · intro hpe
      rw [h.2.2.2.2.1, hpe]
      simpa using dictGet_set st.answers "Symptoms" (.l [])
  · constructor
    · simp [handle_input, hp, hl, hnone]
    · simp [handle_input, hp, hl, hnone]
  · constructor
    · simp [handle_input, hp, hl]
    · simp [handle_input, hp, hl]

/-- C1 witness: the amended behavior at two concrete messages from a
reachable selection state — the digit-free "hello" completes with an empty
selection, while the superscript "²" (isdigit-true, `int()`-rejected)
re-prompts with the state unchanged. -/
theorem symptom_parse_failure_amended_witness :
    (dictGet? (handle_input envRef pending_state "hello").1.answers "Symptoms" = some (.l [])
      ∧ (handle_input envRef pending_state "hello").2 = some (.text thank_you_prompt))
    ∧ ((handle_input envRef pending_state "²").1 = pending_state
      ∧ (handle_input envRef pending_state "²").2
          = some (.text "Invalid input. Please enter numbers separated by commas.")) := by
  have h1 := (symptom_parse_failure_amended envRef pending_state "hello" rfl).1
    SYMPTOM_COLUMNS rfl
  have h2 := (symptom_parse_failure_amended envRef pending_state "²" rfl).1
    SYMPTOM_COLUMNS rfl
  have ha := h1.1 [] (by decide)
  exact ⟨⟨ha.2.2.2.1 rfl, ha.2.2.2.2⟩, h2.2 (by decide)⟩

/-- A 99-element symptom catalog. -/
def catalog99 : List String := List.replicate 99 "s"

/-- A selection state holding the 99-element catalog. -/
def pending_state99 : ChatState :=
  ⟨.idx 4, [], none, none, true, some catalog99⟩

/-- C8 counterexample: against a catalog of size 99 (which has "size at
least 3"), the input "1, 3, 99" does NOT drop the pick 99 — index 98 is in
range, so three symptoms are stored, not the claimed two. -/
theorem symptom_selection_pick_counterexample :
    catalog99.length = 99
    ∧ dictGet? (handle_input envRef pending_state99 "1, 3, 99").1.answers "Symptoms"
        = some (.l ["s", "s", "s"])
    ∧ dictGet? (handle_input envRef pending_state99 "1, 3, 99").1.answers "Symptoms"
        ≠ some (.l [catalog99.getD 0 "", catalog99.getD 2 ""]) := by
  refine ⟨by decide, by decide, by decide⟩

/-- C8 (amended): for every catalog of size at least 3 *and at most 98*
(so that the pick 99 is actually out of range), handling "1, 3, 99" stores
exactly the first and third catalog entries, silently drops 99, clears the
pending flag and jumps to step 6. -/
theorem symptom_selection_pick_amended (env : Env) (st : ChatState)
    (a b c : String) (rest : List String)
    (hp : st.symptom_selection_pending = true)
    (hl : st.symptom_list = some (a :: b :: c :: rest))
    (hlen : (a :: b :: c :: rest).length ≤ 98) :
    dictGet? (handle_input env st "1, 3, 99").1.answers "Symptoms" = some (.l [a, c])
    ∧ (handle_input env st "1, 3, 99").1.symptom_selection_pending = false
    ∧ (handle_input env st "1, 3, 99").1.step = .idx 6 := by
  have h := hi_pick env st "1, 3, 99" (a :: b :: c :: rest) [0, 2, 98] hp hl
    (by decide : parse_selection "1, 3, 99" = some [0, 2, 98])
  have hsel : (([0, 2, 98] : List Int).filter
      (fun i => 0 ≤ i ∧ i < ((a :: b :: c :: rest).length : Int))).filterMap
      (fun i => (a :: b :: c :: rest).get? i.toNat) = [a, c] := by
    have hL3 : (3 : Int) ≤ ((a :: b :: c :: rest).length : Int) := by
      simp only [List.length_cons]
      push_cast
      omega
    have hL98 : ((a :: b :: c :: rest).length : Int) ≤ 98 := by exact_mod_cast hlen
    have c0 : ((0:Int) ≤ 0 ∧ (0:Int) < ((a :: b :: c :: rest).length : Int)) :=
      ⟨le_refl _, by omega⟩
    have c2 : ((0:Int) ≤ 2 ∧ (2:Int) < ((a :: b :: c :: rest).length : Int)) :=
      ⟨by norm_num, by omega⟩
    have c98 : ¬((0:Int) ≤ 98 ∧ (98:Int) < ((a :: b :: c :: rest).length : Int)) := by
      rintro ⟨-, hlt⟩
      omega
    simp only [List.filter_cons, c0, c2, c98, decide_eq_true_eq, if_pos, if_neg,
      decide_eq_false_iff_not, List.filter_nil, not_false_iff]
    simp [List.filterMap]
  rw [hsel] at h
  refine ⟨?_, h.2.1, h.1⟩
  rw [h.2.2.2.2.1]
  exact dictGet_set _ _ _

/-- C8 witness: the amended behavior against the real 55-symptom catalog. -/
theorem symptom_selection_pick_amended_witness :
    SYMPTOM_COLUMNS.length ≤ 98
    ∧ dictGet? (handle_input envRef pending_state "1, 3, 99").1.answers "Symptoms"
        = some (.l ["Cough", "Frequent lung infections"])
    ∧ (handle_input envRef pending_state "1, 3, 99").1.step = .idx 6 := by
  have h := symptom_selection_pick_amended envRef pending_state "Cough" "Wheezing"
    "Frequent lung infections" (SYMPTOM_COLUMNS.drop 3) rfl (by decide) (by decide)
  exact ⟨by decide, h.1, h.2.2⟩

theorem hi_step (env : Env) (st : ChatState) (m : String) (n : Nat)
    (key : String) (mapper : String → PyVal) (next : String)
    (hp : st.symptom_selection_pending = false)
    (hs : st.step = .idx n)
    (hm : steps_map n = some (key, mapper, next))
    (h1 : next ≠ "symptom_selection")
    (h2 : next ≠ "Final step") :
    (handle_input env st m).1.step = .idx (n + 1)
    ∧ (handle_input env st m).1.symptom_selection_pending = false
    ∧ (handle_input env st m).1.final_prediction = st.final_prediction
    ∧ (handle_input env st m).1.symptom_list = st.symptom_list
    ∧ (handle_input env st m).2 = some (.text next) := by
  simp [handle_input, hp, hs, hm, h1, h2]

theorem hi_step4 (env : Env) (st : ChatState) (m : String)
    (hp : st.symptom_selection_pending = false)
    (hs : st.step = .idx 4) :
    (handle_input env st m).1.step = .idx 4
    ∧ (handle_input env st m).1.symptom_selection_pending = true
    ∧ (handle_input env st m).1.final_prediction = st.final_prediction
    ∧ (handle_input env st m).1.symptom_list = some SYMPTOM_COLUMNS
    ∧ (handle_input env st m).2
        = some (.symptomSelection "Please select the symptoms you have:" SYMPTOM_COLUMNS) := by
  simp [handle_input, hp, hs, steps_map]

theorem hi_step22 (env : Env) (st : ChatState) (m : String)
    (hp : st.symptom_selection_pending = false)
    (hs : st.step = .idx 22) :
    (handle_input env st m).1.step = .finalWaiting
    ∧ (handle_input env st m).1.symptom_selection_pending = false
    ∧ (handle_input env st m).1.final_prediction = st.final_prediction
    ∧ (handle_input env st m).2
        = some (.waitAndPredict "Please wait... Your genetic risk assessment report is being generated.") := by
  simp [handle_input, hp, hs, steps_map]

theorem final_prediction_success (env : Env) (st : ChatState) (p : String) (cf : ℚ)
    (pm : List (String × ℚ))
    (hpred : predict_disorder env (_map_answers_to_model_features st.answers)
        = some (p, cf, pm)) :
    ∃ st2, _final_prediction env st
        = (st2, some (st2.final_prediction.getD "" ++ _report_download_message env st2))
      ∧ st2.final_prediction = some (final_prediction_text p cf) := by
  unfold _final_prediction
  rw [hpred]
  refine ⟨_, rfl, ?_⟩
  rw [gen_report_final_pred]

theorem hi_final (env : Env) (st : ChatState) (m : String)
    (hp : st.symptom_selection_pending = false)
    (hs : st.step = .finalWaiting)
    (hpt : ∃ r, predict_disorder env (_map_answers_to_model_features st.answers) = some r) :
    ∃ p cf pm,
      predict_disorder env (_map_answers_to_model_features st.answers) = some (p, cf, pm)
      ∧ (handle_input env st m).1.final_prediction = some (final_prediction_text p cf)
      ∧ (handle_input env st m).1.step = .completed
      ∧ (∃ res, (handle_input env st m).2 = some (.finalResult res))
      ∧ is_analysis_complete (handle_input env st m).1 = true := by
  obtain ⟨⟨p, cf, pm⟩, hpred⟩ := hpt
  obtain ⟨st2, hfp, hfin⟩ := final_prediction_success env st p cf pm hpred
  have hhi : (handle_input env st m).1 = { st2 with step := .completed }
      ∧ ∃ res, (handle_input env st m).2 = some (.finalResult res) := by
    constructor
    · simp [handle_input, hp, hs, hfp]
    · exact ⟨"Your comprehensive genetic risk assessment report has been generated.<br>" ++
        (st2.final_prediction.getD "" ++ _report_download_message env st2),
        by simp [handle_input, hp, hs, hfp]⟩
  refine ⟨p, cf, pm, hpred, ?_, ?_, hhi.2, ?_⟩
  · rw [hhi.1]
    simpa using hfin
  · rw [hhi.1]
  · rw [hhi.1]
    simp [is_analysis_complete, hfin]


theorem runMsgs_snoc (env : Env) (s : ChatState) (ms : List String) (m : String) :
    runMsgs env s (ms ++ [m]) = (handle_input env (runMsgs env s ms) m).1 := by
  simp [runMsgs, List.foldl_append]

/-- C5: for every environment holding the reference classifier and every
scripted run of 23 messages supplying valid answers (five plain steps, a
symptom-pick message that `int()` parses, then the remaining seventeen
steps — every plain step accepts any text since its normalizer is total),
`is_analysis_complete` is false after every prefix up to and including the
final table step — whose call returns the processing payload and moves the
step to the waiting sentinel — and becomes true exactly at the subsequent
call, which runs the predictor successfully, stores the non-null
prediction text, and returns the final-result payload. -/
theorem full_run_two_phase (env : Env)
    (hc : env.class_names = VALID_CLASSES)
    (hl : ∀ r, (env.predict_proba r).length = 3)
    (a0 a1 a2 a3 a4 p5 a6 a7 a8 a9 a10 a11 a12 a13 a14 a15 a16 a17 a18 a19 a20 a21 a22 mfin : String) (picks5 : List Int) (ms : List String)
    (hms : ms = [a0, a1, a2, a3, a4, p5, a6, a7, a8, a9, a10, a11, a12, a13, a14, a15, a16, a17, a18, a19, a20, a21, a22])
    (hpick : parse_selection p5 = some picks5) :
    (∀ k, k ≤ 23 → is_analysis_complete (runMsgs env fresh_state (ms.take k)) = false)
    ∧ (handle_input env (runMsgs env fresh_state (ms.take 22)) a22).2
        = some (.waitAndPredict "Please wait... Your genetic risk assessment report is being generated.")
    ∧ (runMsgs env fresh_state ms).step = .finalWaiting
    ∧ is_analysis_complete (handle_input env (runMsgs env fresh_state ms) mfin).1 = true
    ∧ (∃ res, (handle_input env (runMsgs env fresh_state ms) mfin).2 = some (.finalResult res))
    ∧ (∃ p cf pm,
        predict_disorder env (_map_answers_to_model_features (runMsgs env fresh_state ms).answers)
          = some (p, cf, pm)
        ∧ (handle_input env (runMsgs env fresh_state ms) mfin).1.final_prediction
          = some (final_prediction_text p cf)) := by
  subst hms
  have G0 : (runMsgs env fresh_state []).step = StepV.idx 0
      ∧ (runMsgs env fresh_state []).symptom_selection_pending = false
      ∧ (runMsgs env fresh_state []).final_prediction = none
      ∧ (runMsgs env fresh_state []).symptom_list = none := ⟨rfl, rfl, rfl, rfl⟩
  have G1 : (runMsgs env fresh_state [a0]).step = StepV.idx 1
      ∧ (runMsgs env fresh_state [a0]).symptom_selection_pending = false
      ∧ (runMsgs env fresh_state [a0]).final_prediction = none
      ∧ (runMsgs env fresh_state [a0]).symptom_list = none := by
    have hsnoc : runMsgs env fresh_state [a0]
        = (handle_input env (runMsgs env fresh_state []) a0).1 := by
      rw [show ([a0] : List String) = [] ++ [a0] from rfl, runMsgs_snoc]
    rw [hsnoc]
    have h := hi_step env (runMsgs env fresh_state []) a0 0 _ _ _ G0.2.1 G0.1 rfl (by decide) (by decide)
    exact ⟨h.1, h.2.1, h.2.2.1.trans G0.2.2.1, h.2.2.2.1.trans G0.2.2.2⟩
  have G2 : (runMsgs env fresh_state [a0, a1]).step = StepV.idx 2
      ∧ (runMsgs env fresh_state [a0, a1]).symptom_selection_pending = false
      ∧ (runMsgs env fresh_state [a0, a1]).final_prediction = none
      ∧ (runMsgs env fresh_state [a0, a1]).symptom_list = none := by
    have hsnoc : runMsgs env fresh_state [a0, a1]
        = (handle_input env (runMsgs env fresh_state [a0]) a1).1 := by
      rw [show ([a0, a1] : List String) = [a0] ++ [a1] from rfl, runMsgs_snoc]
    rw [hsnoc]
    have h := hi_step env (runMsgs env fresh_state [a0]) a1 1 _ _ _ G1.2.1 G1.1 rfl (by decide) (by decide)
    exact ⟨h.1, h.2.1, h.2.2.1.trans G1.2.2.1, h.2.2.2.1.trans G1.2.2.2⟩
  have G3 : (runMsgs env fresh_state [a0, a1, a2]).step = StepV.idx 3
      ∧ (runMsgs env fresh_state [a0, a1, a2]).symptom_selection_pending = false
      ∧ (runMsgs env fresh_state [a0, a1, a2]).final_prediction = none
      ∧ (runMsgs env fresh_state [a0, a1, a2]).symptom_list = none := by
    have hsnoc : runMsgs env fresh_state [a0, a1, a2]
        = (handle_input env (runMsgs env fresh_state [a0, a1]) a2).1 := by
      rw [show ([a0, a1, a2] : List String) = [a0, a1] ++ [a2] from rfl, runMsgs_snoc]
    rw [hsnoc]
    have h := hi_step env (runMsgs env fresh_state [a0, a1]) a2 2 _ _ _ G2.2.1 G2.1 rfl (by decide) (by decide)
    exact ⟨h.1, h.2.1, h.2.2.1.trans G2.2.2.1, h.2.2.2.1.trans G2.2.2.2⟩
  have G4 : (runMsgs env fresh_state [a0, a1, a2, a3]).step = StepV.idx 4
      ∧ (runMsgs env fresh_state [a0, a1, a2, a3]).symptom_selection_pending = false
      ∧ (runMsgs env fresh_state [a0, a1, a2, a3]).final_prediction = none
      ∧ (runMsgs env fresh_state [a0, a1, a2, a3]).symptom_list = none := by
    have hsnoc : runMsgs env fresh_state [a0, a1, a2, a3]
        = (handle_input env (runMsgs env fresh_state [a0, a1, a2]) a3).1 := by
      rw [show ([a0, a1, a2, a3] : List String) = [a0, a1, a2] ++ [a3] from rfl, runMsgs_snoc]
    rw [hsnoc]
    have h := hi_step env (runMsgs env fresh_state [a0, a1, a2]) a3 3 _ _ _ G3.2.1 G3.1 rfl (by decide) (by decide)
    exact ⟨h.1, h.2.1, h.2.2.1.trans G3.2.2.1, h.2.2.2.1.trans G3.2.2.2⟩
  have G5 : (runMsgs env fresh_state [a0, a1, a2, a3, a4]).step = StepV.idx 4
      ∧ (runMsgs env fresh_state [a0, a1, a2, a3, a4]).symptom_selection_pending = true
      ∧ (runMsgs env fresh_state [a0, a1, a2, a3, a4]).final_prediction = none
      ∧ (runMsgs env fresh_state [a0, a1, a2, a3, a4]).symptom_list = some SYMPTOM_COLUMNS := by
    have hsnoc : runMsgs env fresh_state [a0, a1, a2, a3, a4]
        = (handle_input env (runMsgs env fresh_state [a0, a1, a2, a3]) a4).1 := by
      rw [show ([a0, a1, a2, a3, a4] : List String) = [a0, a1, a2, a3] ++ [a4] from rfl, runMsgs_snoc]
    rw [hsnoc]
    have h := hi_step4 env (runMsgs env fresh_state [a0, a1, a2, a3]) a4 G4.2.1 G4.1
    exact ⟨h.1, h.2.1, h.2.2.1.trans G4.2.2.1, h.2.2.2.1⟩
  have G6 : (runMsgs env fresh_state [a0, a1, a2, a3, a4, p5]).step = StepV.idx 6
      ∧ (runMsgs env fresh_state [a0, a1, a2, a3, a4, p5]).symptom_selection_pending = false
      ∧ (runMsgs env fresh_state [a0, a1, a2, a3, a4, p5]).final_prediction = none
      ∧ (runMsgs env fresh_state [a0, a1, a2, a3, a4, p5]).symptom_list = some SYMPTOM_COLUMNS := by
    have hsnoc : runMsgs env fresh_state [a0, a1, a2, a3, a4, p5]
        = (handle_input env (runMsgs env fresh_state [a0, a1, a2, a3, a4]) p5).1 := by
      rw [show ([a0, a1, a2, a3, a4, p5] : List String) = [a0, a1, a2, a3, a4] ++ [p5] from rfl, runMsgs_snoc]
    rw [hsnoc]
    have h := hi_pick env (runMsgs env fresh_state [a0, a1, a2, a3, a4]) p5 SYMPTOM_COLUMNS picks5 G5.2.1 G5.2.2.2 hpick
    exact ⟨h.1, h.2.1, h.2.2.1.trans G5.2.2.1, h.2.2.2.1.trans G5.2.2.2⟩
  have G7 : (runMsgs env fresh_state [a0, a1, a2, a3, a4, p5, a6]).step = StepV.idx 7
      ∧ (runMsgs env fresh_state [a0, a1, a2, a3, a4, p5, a6]).symptom_selection_pending = false
      ∧ (runMsgs env fresh_state [a0, a1, a2, a3, a4, p5, a6]).final_prediction = none
      ∧ (runMsgs env fresh_state [a0, a1, a2, a3, a4, p5, a6]).symptom_list = some SYMPTOM_COLUMNS := by
    have hsnoc : runMsgs env fresh_state [a0, a1, a2, a3, a4, p5, a6]
        = (handle_input env (runMsgs env fresh_state [a0, a1, a2, a3, a4, p5]) a6).1 := by
      rw [show ([a0, a1, a2, a3, a4, p5, a6] : List String) = [a0, a1, a2, a3, a4, p5] ++ [a6] from rfl, runMsgs_snoc]
    rw [hsnoc]
    have h := hi_step env (runMsgs env fresh_state [a0, a1, a2, a3, a4, p5]) a6 6 _ _ _ G6.2.1 G6.1 rfl (by decide) (by decide)
    exact ⟨h.1, h.2.1, h.2.2.1.trans G6.2.2.1, h.2.2.2.1.trans G6.2.2.2⟩
  have G8 : (runMsgs env fresh_state [a0, a1, a2, a3, a4, p5, a6, a7]).step = StepV.idx 8
      ∧ (runMsgs env fresh_state [a0, a1, a2, a3, a4, p5, a6, a7]).symptom_selection_pending = false
      ∧ (runMsgs env fresh_state [a0, a1, a2, a3, a4, p5, a6, a7]).final_prediction = none
      ∧ (runMsgs env fresh_state [a0, a1, a2, a3, a4, p5, a6, a7]).symptom_list = some SYMPTOM_COLUMNS := by
    have hsnoc : runMsgs env fresh_state [a0, a1, a2, a3, a4, p5, a6, a7]
        = (handle_input env (runMsgs env fresh_state [a0, a1, a2, a3, a4, p5, a6]) a7).1 := by
      rw [show ([a0, a1, a2, a3, a4, p5, a6, a7] : List String) = [a0, a1, a2, a3, a4, p5, a6] ++ [a7] from rfl, runMsgs_snoc]
    rw [hsnoc]
    have h := hi_step env (runMsgs env fresh_state [a0, a1, a2, a3, a4, p5, a6]) a7 7 _ _ _ G7.2.1 G7.1 rfl (by decide) (by decide)
    exact ⟨h.1, h.2.1, h.2.2.1.trans G7.2.2.1, h.2.2.2.1.trans G7.2.2.2⟩
  have G9 : (runMsgs env fresh_state [a0, a1, a2, a3, a4, p5, a6, a7, a8]).step = StepV.idx 9
      ∧ (runMsgs env fresh_state [a0, a1, a2, a3, a4, p5, a6, a7, a8]).symptom_selection_pending = false
      ∧ (runMsgs env fresh_state [a0, a1, a2, a3, a4, p5, a6, a7, a8]).final_prediction = none
      ∧ (runMsgs env fresh_state [a0, a1, a2, a3, a4, p5, a6, a7, a8]).symptom_list = some SYMPTOM_COLUMNS := by
    have hsnoc : runMsgs env fresh_state [a0, a1, a2, a3, a4, p5, a6, a7, a8]
        = (handle_input env (runMsgs env fresh_state [a0, a1, a2, a3, a4, p5, a6, a7]) a8).1 := by
      rw [show ([a0, a1, a2, a3, a4, p5, a6, a7, a8] : List String) = [a0, a1, a2, a3, a4, p5, a6, a7] ++ [a8] from rfl, runMsgs_snoc]
    rw [hsnoc]
    have h := hi_step env (runMsgs env fresh_state [a0, a1, a2, a3, a4, p5, a6, a7]) a8 8 _ _ _ G8.2.1 G8.1 rfl (by decide) (by decide)
    exact ⟨h.1, h.2.1, h.2.2.1.trans G8.2.2.1, h.2.2.2.1.trans G8.2.2.2⟩
  have G10 : (runMsgs env fresh_state [a0, a1, a2, a3, a4, p5, a6, a7, a8, a9]).step = StepV.idx 10
      ∧ (runMsgs env fresh_state [a0, a1, a2, a3, a4, p5, a6, a7, a8, a9]).symptom_selection_pending = false
      ∧ (runMsgs env fresh_state [a0, a1, a2, a3, a4, p5, a6, a7, a8, a9]).final_prediction = none
      ∧ (runMsgs env fresh_state [a0, a1, a2, a3, a4, p5, a6, a7, a8, a9]).symptom_list = some SYMPTOM_COLUMNS := by
    have hsnoc : runMsgs env fresh_state [a0, a1, a2, a3, a4, p5, a6, a7, a8, a9]
        = (handle_input env (runMsgs env fresh_state [a0, a1, a2, a3, a4, p5, a6, a7, a8]) a9).1 := by
      rw [show ([a0, a1, a2, a3, a4, p5, a6, a7, a8, a9] : List String) = [a0, a1, a2, a3, a4, p5, a6, a7, a8] ++ [a9] from rfl, runMsgs_snoc]
    rw [hsnoc]
    have h := hi_step env (runMsgs env fresh_state [a0, a1, a2, a3, a4, p5, a6, a7, a8]) a9 9 _ _ _ G9.2.1 G9.1 rfl (by decide) (by decide)
    exact ⟨h.1, h.2.1, h.2.2.1.trans G9.2.2.1, h.2.2.2.1.trans G9.2.2.2⟩
  have G11 : (runMsgs env fresh_state [a0, a1, a2, a3, a4, p5, a6, a7, a8, a9, a10]).step = StepV.idx 11
      ∧ (runMsgs env fresh_state [a0, a1, a2, a3, a4, p5, a6, a7, a8, a9, a10]).symptom_selection_pending = false
      ∧ (runMsgs env fresh_state [a0, a1, a2, a3, a4, p5, a6, a7, a8, a9, a10]).final_prediction = none
      ∧ (runMsgs env fresh_state [a0, a1, a2, a3, a4, p5, a6, a7, a8, a9, a10]).symptom_list = some SYMPTOM_COLUMNS := by
    have hsnoc : runMsgs env fresh_state [a0, a1, a2, a3, a4, p5, a6, a7, a8, a9, a10]
        = (handle_input env (runMsgs env fresh_state [a0, a1, a2, a3, a4, p5, a6, a7, a8, a9]) a10).1 := by
      rw [show ([a0, a1, a2, a3, a4, p5, a6, a7, a8, a9, a10] : List String) = [a0, a1, a2, a3, a4, p5, a6, a7, a8, a9] ++ [a10] from rfl, runMsgs_snoc]
    rw [hsnoc]
    have h := hi_step env (runMsgs env fresh_state [a0, a1, a2, a3, a4, p5, a6, a7, a8, a9]) a10 10 _ _ _ G10.2.1 G10.1 rfl (by decide) (by decide)
    exact ⟨h.1, h.2.1, h.2.2.1.trans G10.2.2.1, h.2.2.2.1.trans G10.2.2.2⟩
  have G12 : (runMsgs env fresh_state [a0, a1, a2, a3, a4, p5, a6, a7, a8, a9, a10, a11]).step = StepV.idx 12
      ∧ (runMsgs env fresh_state [a0, a1, a2, a3, a4, p5, a6, a7, a8, a9, a10, a11]).symptom_selection_pending = false
      ∧ (runMsgs env fresh_state [a0, a1, a2, a3, a4, p5, a6, a7, a8, a9, a10, a11]).final_prediction = none
      ∧ (runMsgs env fresh_state [a0, a1, a2, a3, a4, p5, a6, a7, a8, a9, a10, a11]).symptom_list = some SYMPTOM_COLUMNS := by
    have hsnoc : runMsgs env fresh_state [a0, a1, a2, a3, a4, p5, a6, a7, a8, a9, a10, a11]
        = (handle_input env (runMsgs env fresh_state [a0, a1, a2, a3, a4, p5, a6, a7, a8, a9, a10]) a11).1 := by
      rw [show ([a0, a1, a2, a3, a4, p5, a6, a7, a8, a9, a10, a11] : List String) = [a0, a1, a2, a3, a4, p5, a6, a7, a8, a9, a10] ++ [a11] from rfl, runMsgs_snoc]
    rw [hsnoc]
    have h := hi_step env (runMsgs env fresh_state [a0, a1, a2, a3, a4, p5, a6, a7, a8, a9, a10]) a11 11 _ _ _ G11.2.1 G11.1 rfl (by decide) (by decide)
    exact ⟨h.1, h.2.1, h.2.2.1.trans G11.2.2.1, h.2.2.2.1.trans G11.2.2.2⟩
  have G13 : (runMsgs env fresh_state [a0, a1, a2, a3, a4, p5, a6, a7, a8, a9, a10, a11, a12]).step = StepV.idx 13
      ∧ (runMsgs env fresh_state [a0, a1, a2, a3, a4, p5, a6, a7, a8, a9, a10, a11, a12]).symptom_selection_pending = false
      ∧ (runMsgs env fresh_state [a0, a1, a2, a3, a4, p5, a6, a7, a8, a9, a10, a11, a12]).final_prediction = none
      ∧ (runMsgs env fresh_state [a0, a1, a2, a3, a4, p5, a6, a7, a8, a9, a10, a11, a12]).symptom_list = some SYMPTOM_COLUMNS := by
    have hsnoc : runMsgs env fresh_state [a0, a1, a2, a3, a4, p5, a6, a7, a8, a9, a10, a11, a12]
        = (handle_input env (runMsgs env fresh_state [a0, a1, a2, a3, a4, p5, a6, a7, a8, a9, a10, a11]) a12).1 := by
      rw [show ([a0, a1, a2, a3, a4, p5, a6, a7, a8, a9, a10, a11, a12] : List String) = [a0, a1, a2, a3, a4, p5, a6, a7, a8, a9, a10, a11] ++ [a12] from rfl, runMsgs_snoc]
    rw [hsnoc]
    have h := hi_step env (runMsgs env fresh_state [a0, a1, a2, a3, a4, p5, a6, a7, a8, a9, a10, a11]) a12 12 _ _ _ G12.2.1 G12.1 rfl (by decide) (by decide)
    exact ⟨h.1, h.2.1, h.2.2.1.trans G12.2.2.1, h.2.2.2.1.trans G12.2.2.2⟩
  have G14 : (runMsgs env fresh_state [a0, a1, a2, a3, a4, p5, a6, a7, a8, a9, a10, a11, a12, a13]).step = StepV.idx 14
      ∧ (runMsgs env fresh_state [a0, a1, a2, a3, a4, p5, a6, a7, a8, a9, a10, a11, a12, a13]).symptom_selection_pending = false
      ∧ (runMsgs env fresh_state [a0, a1, a2, a3, a4, p5, a6, a7, a8, a9, a10, a11, a12, a13]).final_prediction = none
      ∧ (runMsgs env fresh_state [a0, a1, a2, a3, a4, p5, a6, a7, a8, a9, a10, a11, a12, a13]).symptom_list = some SYMPTOM_COLUMNS := by
    have hsnoc : runMsgs env fresh_state [a0, a1, a2, a3, a4, p5, a6, a7, a8, a9, a10, a11, a12, a13]
        = (handle_input env (runMsgs env fresh_state [a0, a1, a2, a3, a4, p5, a6, a7, a8, a9, a10, a11, a12]) a13).1 := by
      rw [show ([a0, a1, a2, a3, a4, p5, a6, a7, a8, a9, a10, a11, a12, a13] : List String) = [a0, a1, a2, a3, a4, p5, a6, a7, a8, a9, a10, a11, a12] ++ [a13] from rfl, runMsgs_snoc]
    rw [hsnoc]
    have h := hi_step env (runMsgs env fresh_state [a0, a1, a2, a3, a4, p5, a6, a7, a8, a9, a10, a11, a12]) a13 13 _ _ _ G13.2.1 G13.1 rfl (by decide) (by decide)
    exact ⟨h.1, h.2.1, h.2.2.1.trans G13.2.2.1, h.2.2.2.1.trans G13.2.2.2⟩
  have G15 : (runMsgs env fresh_state [a0, a1, a2, a3, a4, p5, a6, a7, a8, a9, a10, a11, a12, a13, a14]).step = StepV.idx 15
      ∧ (runMsgs env fresh_state [a0, a1, a2, a3, a4, p5, a6, a7, a8, a9, a10, a11, a12, a13, a14]).symptom_selection_pending = false
      ∧ (runMsgs env fresh_state [a0, a1, a2, a3, a4, p5, a6, a7, a8, a9, a10, a11, a12, a13, a14]).final_prediction = none
      ∧ (runMsgs env fresh_state [a0, a1, a2, a3, a4, p5, a6, a7, a8, a9, a10, a11, a12, a13, a14]).symptom_list = some SYMPTOM_COLUMNS := by
    have hsnoc : runMsgs env fresh_state [a0, a1, a2, a3, a4, p5, a6, a7, a8, a9, a10, a11, a12, a13, a14]
        = (handle_input env (runMsgs env fresh_state [a0, a1, a2, a3, a4, p5, a6, a7, a8, a9, a10, a11, a12, a13]) a14).1 := by
      rw [show ([a0, a1, a2, a3, a4, p5, a6, a7, a8, a9, a10, a11, a12, a13, a14] : List String) = [a0, a1, a2, a3, a4, p5, a6, a7, a8, a9, a10, a11, a12, a13] ++ [a14] from rfl, runMsgs_snoc]
    rw [hsnoc]
    have h := hi_step env (runMsgs env fresh_state [a0, a1, a2, a3, a4, p5, a6, a7, a8, a9, a10, a11, a12, a13]) a14 14 _ _ _ G14.2.1 G14.1 rfl (by decide) (by decide)
    exact ⟨h.1, h.2.1, h.2.2.1.trans G14.2.2.1, h.2.2.2.1.trans G14.2.2.2⟩
  have G16 : (runMsgs env fresh_state [a0, a1, a2, a3, a4, p5, a6, a7, a8, a9, a10, a11, a12, a13, a14, a15]).step = StepV.idx 16
      ∧ (runMsgs env fresh_state [a0, a1, a2, a3, a4, p5, a6, a7, a8, a9, a10, a11, a12, a13, a14, a15]).symptom_selection_pending = false
      ∧ (runMsgs env fresh_state [a0, a1, a2, a3, a4, p5, a6, a7, a8, a9, a10, a11, a12, a13, a14, a15]).final_prediction = none
      ∧ (runMsgs env fresh_state [a0, a1, a2, a3, a4, p5, a6, a7, a8, a9, a10, a11, a12, a13, a14, a15]).symptom_list = some SYMPTOM_COLUMNS := by
    have hsnoc : runMsgs env fresh_state [a0, a1, a2, a3, a4, p5, a6, a7, a8, a9, a10, a11, a12, a13, a14, a15]
        = (handle_input env (runMsgs env fresh_state [a0, a1, a2, a3, a4, p5, a6, a7, a8, a9, a10, a11, a12, a13, a14]) a15).1 := by
      rw [show ([a0, a1, a2, a3, a4, p5, a6, a7, a8, a9, a10, a11, a12, a13, a14, a15] : List String) = [a0, a1, a2, a3, a4, p5, a6, a7, a8, a9, a10, a11, a12, a13, a14] ++ [a15] from rfl, runMsgs_snoc]
    rw [hsnoc]
    have h := hi_step env (runMsgs env fresh_state [a0, a1, a2, a3, a4, p5, a6, a7, a8, a9, a10, a11, a12, a13, a14]) a15 15 _ _ _ G15.2.1 G15.1 rfl (by decide) (by decide)
    exact ⟨h.1, h.2.1, h.2.2.1.trans G15.2.2.1, h.2.2.2.1.trans G15.2.2.2⟩
  have G17 : (runMsgs env fresh_state [a0, a1, a2, a3, a4, p5, a6, a7, a8, a9, a10, a11, a12, a13, a14, a15, a16]).step = StepV.idx 17
      ∧ (runMsgs env fresh_state [a0, a1, a2, a3, a4, p5, a6, a7, a8, a9, a10, a11, a12, a13, a14, a15, a16]).symptom_selection_pending = false
      ∧ (runMsgs env fresh_state [a0, a1, a2, a3, a4, p5, a6, a7, a8, a9, a10, a11, a12, a13, a14, a15, a16]).final_prediction = none
      ∧ (runMsgs env fresh_state [a0, a1, a2, a3, a4, p5, a6, a7, a8, a9, a10, a11, a12, a13, a14, a15, a16]).symptom_list = some SYMPTOM_COLUMNS := by
    have hsnoc : runMsgs env fresh_state [a0, a1, a2, a3, a4, p5, a6, a7, a8, a9, a10, a11, a12, a13, a14, a15, a16]
        = (handle_input env (runMsgs env fresh_state [a0, a1, a2, a3, a4, p5, a6, a7, a8, a9, a10, a11, a12, a13, a14, a15]) a16).1 := by
      rw [show ([a0, a1, a2, a3, a4, p5, a6, a7, a8, a9, a10, a11, a12, a13, a14, a15, a16] : List String) = [a0, a1, a2, a3, a4, p5, a6, a7, a8, a9, a10, a11, a12, a13, a14, a15] ++ [a16] from rfl, runMsgs_snoc]
    rw [hsnoc]
    have h := hi_step env (runMsgs env fresh_state [a0, a1, a2, a3, a4, p5, a6, a7, a8, a9, a10, a11, a12, a13, a14, a15]) a16 16 _ _ _ G16.2.1 G16.1 rfl (by decide) (by decide)
    exact ⟨h.1, h.2.1, h.2.2.1.trans G16.2.2.1, h.2.2.2.1.trans G16.2.2.2⟩
  have G18 : (runMsgs env fresh_state [a0, a1, a2, a3, a4, p5, a6, a7, a8, a9, a10, a11, a12, a13, a14, a15, a16, a17]).step = StepV.idx 18
      ∧ (runMsgs env fresh_state [a0, a1, a2, a3, a4, p5, a6, a7, a8, a9, a10, a11, a12, a13, a14, a15, a16, a17]).symptom_selection_pending = false
      ∧ (runMsgs env fresh_state [a0, a1, a2, a3, a4, p5, a6, a7, a8, a9, a10, a11, a12, a13, a14, a15, a16, a17]).final_prediction = none
      ∧ (runMsgs env fresh_state [a0, a1, a2, a3, a4, p5, a6, a7, a8, a9, a10, a11, a12, a13, a14, a15, a16, a17]).symptom_list = some SYMPTOM_COLUMNS := by
    have hsnoc : runMsgs env fresh_state [a0, a1, a2, a3, a4, p5, a6, a7, a8, a9, a10, a11, a12, a13, a14, a15, a16, a17]
        = (handle_input env (runMsgs env fresh_state [a0, a1, a2, a3, a4, p5, a6, a7, a8, a9, a10, a11, a12, a13, a14, a15, a16]) a17).1 := by
      rw [show ([a0, a1, a2, a3, a4, p5, a6, a7, a8, a9, a10, a11, a12, a13, a14, a15, a16, a17] : List String) = [a0, a1, a2, a3, a4, p5, a6, a7, a8, a9, a10, a11, a12, a13, a14, a15, a16] ++ [a17] from rfl, runMsgs_snoc]
    rw [hsnoc]
    have h := hi_step env (runMsgs env fresh_state [a0, a1, a2, a3, a4, p5, a6, a7, a8, a9, a10, a11, a12, a13, a14, a15, a16]) a17 17 _ _ _ G17.2.1 G17.1 rfl (by decide) (by decide)
    exact ⟨h.1, h.2.1, h.2.2.1.trans G17.2.2.1, h.2.2.2.1.trans G17.2.2.2⟩
  have G19 : (runMsgs env fresh_state [a0, a1, a2, a3, a4, p5, a6, a7, a8, a9, a10, a11, a12, a13, a14, a15, a16, a17, a18]).step = StepV.idx 19
      ∧ (runMsgs env fresh_state [a0, a1, a2, a3, a4, p5, a6, a7, a8, a9, a10, a11, a12, a13, a14, a15, a16, a17, a18]).symptom_selection_pending = false
      ∧ (runMsgs env fresh_state [a0, a1, a2, a3, a4, p5, a6, a7, a8, a9, a10, a11, a12, a13, a14, a15, a16, a17, a18]).final_prediction = none
      ∧ (runMsgs env fresh_state [a0, a1, a2, a3, a4, p5, a6, a7, a8, a9, a10, a11, a12, a13, a14, a15, a16, a17, a18]).symptom_list = some SYMPTOM_COLUMNS := by
    have hsnoc : runMsgs env fresh_state [a0, a1, a2, a3, a4, p5, a6, a7, a8, a9, a10, a11, a12, a13, a14, a15, a16, a17, a18]
        = (handle_input env (runMsgs env fresh_state [a0, a1, a2, a3, a4, p5, a6, a7, a8, a9, a10, a11, a12, a13, a14, a15, a16, a17]) a18).1 := by
      rw [show ([a0, a1, a2, a3, a4, p5, a6, a7, a8, a9, a10, a11, a12, a13, a14, a15, a16, a17, a18] : List String) = [a0, a1, a2, a3, a4, p5, a6, a7, a8, a9, a10, a11, a12, a13, a14, a15, a16, a17] ++ [a18] from rfl, runMsgs_snoc]
    rw [hsnoc]
    have h := hi_step env (runMsgs env fresh_state [a0, a1, a2, a3, a4, p5, a6, a7, a8, a9, a10, a11, a12, a13, a14, a15, a16, a17]) a18 18 _ _ _ G18.2.1 G18.1 rfl (by decide) (by decide)
    exact ⟨h.1, h.2.1, h.2.2.1.trans G18.2.2.1, h.2.2.2.1.trans G18.2.2.2⟩
  have G20 : (runMsgs env fresh_state [a0, a1, a2, a3, a4, p5, a6, a7, a8, a9, a10, a11, a12, a13, a14, a15, a16, a17, a18, a19]).step = StepV.idx 20
      ∧ (runMsgs env fresh_state [a0, a1, a2, a3, a4, p5, a6, a7, a8, a9, a10, a11, a12, a13, a14, a15, a16, a17, a18, a19]).symptom_selection_pending = false
      ∧ (runMsgs env fresh_state [a0, a1, a2, a3, a4, p5, a6, a7, a8, a9, a10, a11, a12, a13, a14, a15, a16, a17, a18, a19]).final_prediction = none
      ∧ (runMsgs env fresh_state [a0, a1, a2, a3, a4, p5, a6, a7, a8, a9, a10, a11, a12, a13, a14, a15, a16, a17, a18, a19]).symptom_list = some SYMPTOM_COLUMNS := by
    have hsnoc : runMsgs env fresh_state [a0, a1, a2, a3, a4, p5, a6, a7, a8, a9, a10, a11, a12, a13, a14, a15, a16, a17, a18, a19]
        = (handle_input env (runMsgs env fresh_state [a0, a1, a2, a3, a4, p5, a6, a7, a8, a9, a10, a11, a12, a13, a14, a15, a16, a17, a18]) a19).1 := by
      rw [show ([a0, a1, a2, a3, a4, p5, a6, a7, a8, a9, a10, a11, a12, a13, a14, a15, a16, a17, a18, a19] : List String) = [a0, a1, a2, a3, a4, p5, a6, a7, a8, a9, a10, a11, a12, a13, a14, a15, a16, a17, a18] ++ [a19] from rfl, runMsgs_snoc]
    rw [hsnoc]
    have h := hi_step env (runMsgs env fresh_state [a0, a1, a2, a3, a4, p5, a6, a7, a8, a9, a10, a11, a12, a13, a14, a15, a16, a17, a18]) a19 19 _ _ _ G19.2.1 G19.1 rfl (by decide) (by decide)
    exact ⟨h.1, h.2.1, h.2.2.1.trans G19.2.2.1, h.2.2.2.1.trans G19.2.2.2⟩
  have G21 : (runMsgs env fresh_state [a0, a1, a2, a3, a4, p5, a6, a7, a8, a9, a10, a11, a12, a13, a14, a15, a16, a17, a18, a19, a20]).step = StepV.idx 21
      ∧ (runMsgs env fresh_state [a0, a1, a2, a3, a4, p5, a6, a7, a8, a9, a10, a11, a12, a13, a14, a15, a16, a17, a18, a19, a20]).symptom_selection_pending = false
      ∧ (runMsgs env fresh_state [a0, a1, a2, a3, a4, p5, a6, a7, a8, a9, a10, a11, a12, a13, a14, a15, a16, a17, a18, a19, a20]).final_prediction = none
      ∧ (runMsgs env fresh_state [a0, a1, a2, a3, a4, p5, a6, a7, a8, a9, a10, a11, a12, a13, a14, a15, a16, a17, a18, a19, a20]).symptom_list = some SYMPTOM_COLUMNS := by
    have hsnoc : runMsgs env fresh_state [a0, a1, a2, a3, a4, p5, a6, a7, a8, a9, a10, a11, a12, a13, a14, a15, a16, a17, a18, a19, a20]
        = (handle_input env (runMsgs env fresh_state [a0, a1, a2, a3, a4, p5, a6, a7, a8, a9, a10, a11, a12, a13, a14, a15, a16, a17, a18, a19]) a20).1 := by
      rw [show ([a0, a1, a2, a3, a4, p5, a6, a7, a8, a9, a10, a11, a12, a13, a14, a15, a16, a17, a18, a19, a20] : List String) = [a0, a1, a2, a3, a4, p5, a6, a7, a8, a9, a10, a11, a12, a13, a14, a15, a16, a17, a18, a19] ++ [a20] from rfl, runMsgs_snoc]
    rw [hsnoc]
    have h := hi_step env (runMsgs env fresh_state [a0, a1, a2, a3, a4, p5, a6, a7, a8, a9, a10, a11, a12, a13, a14, a15, a16, a17, a18, a19]) a20 20 _ _ _ G20.2.1 G20.1 rfl (by decide) (by decide)
    exact ⟨h.1, h.2.1, h.2.2.1.trans G20.2.2.1, h.2.2.2.1.trans G20.2.2.2⟩
  have G22 : (runMsgs env fresh_state [a0, a1, a2, a3, a4, p5, a6, a7, a8, a9, a10, a11, a12, a13, a14, a15, a16, a17, a18, a19, a20, a21]).step = StepV.idx 22
      ∧ (runMsgs env fresh_state [a0, a1, a2, a3, a4, p5, a6, a7, a8, a9, a10, a11, a12, a13, a14, a15, a16, a17, a18, a19, a20, a21]).symptom_selection_pending = false
      ∧ (runMsgs env fresh_state [a0, a1, a2, a3, a4, p5, a6, a7, a8, a9, a10, a11, a12, a13, a14, a15, a16, a17, a18, a19, a20, a21]).final_prediction = none
      ∧ (runMsgs env fresh_state [a0, a1, a2, a3, a4, p5, a6, a7, a8, a9, a10, a11, a12, a13, a14, a15, a16, a17, a18, a19, a20, a21]).symptom_list = some SYMPTOM_COLUMNS := by
    have hsnoc : runMsgs env fresh_state [a0, a1, a2, a3, a4, p5, a6, a7, a8, a9, a10, a11, a12, a13, a14, a15, a16, a17, a18, a19, a20, a21]
        = (handle_input env (runMsgs env fresh_state [a0, a1, a2, a3, a4, p5, a6, a7, a8, a9, a10, a11, a12, a13, a14, a15, a16, a17, a18, a19, a20]) a21).1 := by
      rw [show ([a0, a1, a2, a3, a4, p5, a6, a7, a8, a9, a10, a11, a12, a13, a14, a15, a16, a17, a18, a19, a20, a21] : List String) = [a0, a1, a2, a3, a4, p5, a6, a7, a8, a9, a10, a11, a12, a13, a14, a15, a16, a17, a18, a19, a20] ++ [a21] from rfl, runMsgs_snoc]
    rw [hsnoc]
    have h := hi_step env (runMsgs env fresh_state [a0, a1, a2, a3, a4, p5, a6, a7, a8, a9, a10, a11, a12, a13, a14, a15, a16, a17, a18, a19, a20]) a21 21 _ _ _ G21.2.1 G21.1 rfl (by decide) (by decide)
    exact ⟨h.1, h.2.1, h.2.2.1.trans G21.2.2.1, h.2.2.2.1.trans G21.2.2.2⟩
  have h23 := hi_step22 env (runMsgs env fresh_state [a0, a1, a2, a3, a4, p5, a6, a7, a8, a9, a10, a11, a12, a13, a14, a15, a16, a17, a18, a19, a20, a21]) a22 G22.2.1 G22.1
  have hsnoc23 : runMsgs env fresh_state [a0, a1, a2, a3, a4, p5, a6, a7, a8, a9, a10, a11, a12, a13, a14, a15, a16, a17, a18, a19, a20, a21, a22]
      = (handle_input env (runMsgs env fresh_state [a0, a1, a2, a3, a4, p5, a6, a7, a8, a9, a10, a11, a12, a13, a14, a15, a16, a17, a18, a19, a20, a21]) a22).1 := by
    rw [show ([a0, a1, a2, a3, a4, p5, a6, a7, a8, a9, a10, a11, a12, a13, a14, a15, a16, a17, a18, a19, a20, a21, a22] : List String) = [a0, a1, a2, a3, a4, p5, a6, a7, a8, a9, a10, a11, a12, a13, a14, a15, a16, a17, a18, a19, a20, a21] ++ [a22] from rfl, runMsgs_snoc]
  have G23 : (runMsgs env fresh_state [a0, a1, a2, a3, a4, p5, a6, a7, a8, a9, a10, a11, a12, a13, a14, a15, a16, a17, a18, a19, a20, a21, a22]).step = StepV.finalWaiting
      ∧ (runMsgs env fresh_state [a0, a1, a2, a3, a4, p5, a6, a7, a8, a9, a10, a11, a12, a13, a14, a15, a16, a17, a18, a19, a20, a21, a22]).symptom_selection_pending = false
      ∧ (runMsgs env fresh_state [a0, a1, a2, a3, a4, p5, a6, a7, a8, a9, a10, a11, a12, a13, a14, a15, a16, a17, a18, a19, a20, a21, a22]).final_prediction = none := by
    rw [hsnoc23]
    exact ⟨h23.1, h23.2.1, h23.2.2.1.trans G22.2.2.1⟩
  have hfin := hi_final env (runMsgs env fresh_state [a0, a1, a2, a3, a4, p5, a6, a7, a8, a9, a10, a11, a12, a13, a14, a15, a16, a17, a18, a19, a20, a21, a22]) mfin G23.2.1 G23.1
    (predict_total env _ hc (hl _))
  obtain ⟨p, cf, pm, hq1, hq2, hq3, hq4, hq5⟩ := hfin
  have htake22 : List.take 22 ([a0, a1, a2, a3, a4, p5, a6, a7, a8, a9, a10, a11, a12, a13, a14, a15, a16, a17, a18, a19, a20, a21, a22] : List String) = [a0, a1, a2, a3, a4, p5, a6, a7, a8, a9, a10, a11, a12, a13, a14, a15, a16, a17, a18, a19, a20, a21] := rfl
  refine ⟨?_, ?_, G23.1, hq5, hq4, ⟨p, cf, pm, hq1, hq2⟩⟩
  · intro k hk
    interval_cases k
    · exact rfl
    · show is_analysis_complete (runMsgs env fresh_state (List.take 1 [a0, a1, a2, a3, a4, p5, a6, a7, a8, a9, a10, a11, a12, a13, a14, a15, a16, a17, a18, a19, a20, a21, a22])) = false
      rw [show List.take 1 ([a0, a1, a2, a3, a4, p5, a6, a7, a8, a9, a10, a11, a12, a13, a14, a15, a16, a17, a18, a19, a20, a21, a22] : List String) = [a0] from rfl]
      simp only [is_analysis_complete, G1.2.2.1, Option.isSome_none]
    · show is_analysis_complete (runMsgs env fresh_state (List.take 2 [a0, a1, a2, a3, a4, p5, a6, a7, a8, a9, a10, a11, a12, a13, a14, a15, a16, a17, a18, a19, a20, a21, a22])) = false
      rw [show List.take 2 ([a0, a1, a2, a3, a4, p5, a6, a7, a8, a9, a10, a11, a12, a13, a14, a15, a16, a17, a18, a19, a20, a21, a22] : List String) = [a0, a1] from rfl]
      simp only [is_analysis_complete, G2.2.2.1, Option.isSome_none]
    · show is_analysis_complete (runMsgs env fresh_state (List.take 3 [a0, a1, a2, a3, a4, p5, a6, a7, a8, a9, a10, a11, a12, a13, a14, a15, a16, a17, a18, a19, a20, a21, a22])) = false
      rw [show List.take 3 ([a0, a1, a2, a3, a4, p5, a6, a7, a8, a9, a10, a11, a12, a13, a14, a15, a16, a17, a18, a19, a20, a21, a22] : List String) = [a0, a1, a2] from rfl]
      simp only [is_analysis_complete, G3.2.2.1, Option.isSome_none]
    · show is_analysis_complete (runMsgs env fresh_state (List.take 4 [a0, a1, a2, a3, a4, p5, a6, a7, a8, a9, a10, a11, a12, a13, a14, a15, a16, a17, a18, a19, a20, a21, a22])) = false
      rw [show List.take 4 ([a0, a1, a2, a3, a4, p5, a6, a7, a8, a9, a10, a11, a12, a13, a14, a15, a16, a17, a18, a19, a20, a21, a22] : List String) = [a0, a1, a2, a3] from rfl]
      simp only [is_analysis_complete, G4.2.2.1, Option.isSome_none]
    · show is_analysis_complete (runMsgs env fresh_state (List.take 5 [a0, a1, a2, a3, a4, p5, a6, a7, a8, a9, a10, a11, a12, a13, a14, a15, a16, a17, a18, a19, a20, a21, a22])) = false
      rw [show List.take 5 ([a0, a1, a2, a3, a4, p5, a6, a7, a8, a9, a10, a11, a12, a13, a14, a15, a16, a17, a18, a19, a20, a21, a22] : List String) = [a0, a1, a2, a3, a4] from rfl]
      simp only [is_analysis_complete, G5.2.2.1, Option.isSome_none]
    · show is_analysis_complete (runMsgs env fresh_state (List.take 6 [a0, a1, a2, a3, a4, p5, a6, a7, a8, a9, a10, a11, a12, a13, a14, a15, a16, a17, a18, a19, a20, a21, a22])) = false
      rw [show List.take 6 ([a0, a1, a2, a3, a4, p5, a6, a7, a8, a9, a10, a11, a12, a13, a14, a15, a16, a17, a18, a19, a20, a21, a22] : List String) = [a0, a1, a2, a3, a4, p5] from rfl]
      simp only [is_analysis_complete, G6.2.2.1, Option.isSome_none]
    · show is_analysis_complete (runMsgs env fresh_state (List.take 7 [a0, a1, a2, a3, a4, p5, a6, a7, a8, a9, a10, a11, a12, a13, a14, a15, a16, a17, a18, a19, a20, a21, a22])) = false
      rw [show List.take 7 ([a0, a1, a2, a3, a4, p5, a6, a7, a8, a9, a10, a11, a12, a13, a14, a15, a16, a17, a18, a19, a20, a21, a22] : List String) = [a0, a1, a2, a3, a4, p5, a6] from rfl]
      simp only [is_analysis_complete, G7.2.2.1, Option.isSome_none]
    · show is_analysis_complete (runMsgs env fresh_state (List.take 8 [a0, a1, a2, a3, a4, p5, a6, a7, a8, a9, a10, a11, a12, a13, a14, a15, a16, a17, a18, a19, a20, a21, a22])) = false
      rw [show List.take 8 ([a0, a1, a2, a3, a4, p5, a6, a7, a8, a9, a10, a11, a12, a13, a14, a15, a16, a17, a18, a19, a20, a21, a22] : List String) = [a0, a1, a2, a3, a4, p5, a6, a7] from rfl]
      simp only [is_analysis_complete, G8.2.2.1, Option.isSome_none]
    · show is_analysis_complete (runMsgs env fresh_state (List.take 9 [a0, a1, a2, a3, a4, p5, a6, a7, a8, a9, a10, a11, a12, a13, a14, a15, a16, a17, a18, a19, a20, a21, a22])) = false
      rw [show List.take 9 ([a0, a1, a2, a3, a4, p5, a6, a7, a8, a9, a10, a11, a12, a13, a14, a15, a16, a17, a18, a19, a20, a21, a22] : List String) = [a0, a1, a2, a3, a4, p5, a6, a7, a8] from rfl]
      simp only [is_analysis_complete, G9.2.2.1, Option.isSome_none]
    · show is_analysis_complete (runMsgs env fresh_state (List.take 10 [a0, a1, a2, a3, a4, p5, a6, a7, a8, a9, a10, a11, a12, a13, a14, a15, a16, a17, a18, a19, a20, a21, a22])) = false
      rw [show List.take 10 ([a0, a1, a2, a3, a4, p5, a6, a7, a8, a9, a10, a11, a12, a13, a14, a15, a16, a17, a18, a19, a20, a21, a22] : List String) = [a0, a1, a2, a3, a4, p5, a6, a7, a8, a9] from rfl]
      simp only [is_analysis_complete, G10.2.2.1, Option.isSome_none]
    · show is_analysis_complete (runMsgs env fresh_state (List.take 11 [a0, a1, a2, a3, a4, p5, a6, a7, a8, a9, a10, a11, a12, a13, a14, a15, a16, a17, a18, a19, a20, a21, a22])) = false
      rw [show List.take 11 ([a0, a1, a2, a3, a4, p5, a6, a7, a8, a9, a10, a11, a12, a13, a14, a15, a16, a17, a18, a19, a20, a21, a22] : List String) = [a0, a1, a2, a3, a4, p5, a6, a7, a8, a9, a10] from rfl]
      simp only [is_analysis_complete, G11.2.2.1, Option.isSome_none]
    · show is_analysis_complete (runMsgs env fresh_state (List.take 12 [a0, a1, a2, a3, a4, p5, a6, a7, a8, a9, a10, a11, a12, a13, a14, a15, a16, a17, a18, a19, a20, a21, a22])) = false
      rw [show List.take 12 ([a0, a1, a2, a3, a4, p5, a6, a7, a8, a9, a10, a11, a12, a13, a14, a15, a16, a17, a18, a19, a20, a21, a22] : List String) = [a0, a1, a2, a3, a4, p5, a6, a7, a8, a9, a10, a11] from rfl]
      simp only [is_analysis_complete, G12.2.2.1, Option.isSome_none]
    · show is_analysis_complete (runMsgs env fresh_state (List.take 13 [a0, a1, a2, a3, a4, p5, a6, a7, a8, a9, a10, a11, a12, a13, a14, a15, a16, a17, a18, a19, a20, a21, a22])) = false
      rw [show List.take 13 ([a0, a1, a2, a3, a4, p5, a6, a7, a8, a9, a10, a11, a12, a13, a14, a15, a16, a17, a18, a19, a20, a21, a22] : List String) = [a0, a1, a2, a3, a4, p5, a6, a7, a8, a9, a10, a11, a12] from rfl]
      simp only [is_analysis_complete, G13.2.2.1, Option.isSome_none]
    · show is_analysis_complete (runMsgs env fresh_state (List.take 14 [a0, a1, a2, a3, a4, p5, a6, a7, a8, a9, a10, a11, a12, a13, a14, a15, a16, a17, a18, a19, a20, a21, a22])) = false
      rw [show List.take 14 ([a0, a1, a2, a3, a4, p5, a6, a7, a8, a9, a10, a11, a12, a13, a14, a15, a16, a17, a18, a19, a20, a21, a22] : List String) = [a0, a1, a2, a3, a4, p5, a6, a7, a8, a9, a10, a11, a12, a13] from rfl]
      simp only [is_analysis_complete, G14.2.2.1, Option.isSome_none]
    · show is_analysis_complete (runMsgs env fresh_state (List.take 15 [a0, a1, a2, a3, a4, p5, a6, a7, a8, a9, a10, a11, a12, a13, a14, a15, a16, a17, a18, a19, a20, a21, a22])) = false
      rw [show List.take 15 ([a0, a1, a2, a3, a4, p5, a6, a7, a8, a9, a10, a11, a12, a13, a14, a15, a16, a17, a18, a19, a20, a21, a22] : List String) = [a0, a1, a2, a3, a4, p5, a6, a7, a8, a9, a10, a11, a12, a13, a14] from rfl]
      simp only [is_analysis_complete, G15.2.2.1, Option.isSome_none]
    · show is_analysis_complete (runMsgs env fresh_state (List.take 16 [a0, a1, a2, a3, a4, p5, a6, a7, a8, a9, a10, a11, a12, a13, a14, a15, a16, a17, a18, a19, a20, a21, a22])) = false
      rw [show List.take 16 ([a0, a1, a2, a3, a4, p5, a6, a7, a8, a9, a10, a11, a12, a13, a14, a15, a16, a17, a18, a19, a20, a21, a22] : List String) = [a0, a1, a2, a3, a4, p5, a6, a7, a8, a9, a10, a11, a12, a13, a14, a15] from rfl]
      simp only [is_analysis_complete, G16.2.2.1, Option.isSome_none]
    · show is_analysis_complete (runMsgs env fresh_state (List.take 17 [a0, a1, a2, a3, a4, p5, a6, a7, a8, a9, a10, a11, a12, a13, a14, a15, a16, a17, a18, a19, a20, a21, a22])) = false
      rw [show List.take 17 ([a0, a1, a2, a3, a4, p5, a6, a7, a8, a9, a10, a11, a12, a13, a14, a15, a16, a17, a18, a19, a20, a21, a22] : List String) = [a0, a1, a2, a3, a4, p5, a6, a7, a8, a9, a10, a11, a12, a13, a14, a15, a16] from rfl]
      simp only [is_analysis_complete, G17.2.2.1, Option.isSome_none]
    · show is_analysis_complete (runMsgs env fresh_state (List.take 18 [a0, a1, a2, a3, a4, p5, a6, a7, a8, a9, a10, a11, a12, a13, a14, a15, a16, a17, a18, a19, a20, a21, a22])) = false
      rw [show List.take 18 ([a0, a1, a2, a3, a4, p5, a6, a7, a8, a9, a10, a11, a12, a13, a14, a15, a16, a17, a18, a19, a20, a21, a22] : List String) = [a0, a1, a2, a3, a4, p5, a6, a7, a8, a9, a10, a11, a12, a13, a14, a15, a16, a17] from rfl]
      simp only [is_analysis_complete, G18.2.2.1, Option.isSome_none]
    · show is_analysis_complete (runMsgs env fresh_state (List.take 19 [a0, a1, a2, a3, a4, p5, a6, a7, a8, a9, a10, a11, a12, a13, a14, a15, a16, a17, a18, a19, a20, a21, a22])) = false
      rw [show List.take 19 ([a0, a1, a2, a3, a4, p5, a6, a7, a8, a9, a10, a11, a12, a13, a14, a15, a16, a17, a18, a19, a20, a21, a22] : List String) = [a0, a1, a2, a3, a4, p5, a6, a7, a8, a9, a10, a11, a12, a13, a14, a15, a16, a17, a18] from rfl]
      simp only [is_analysis_complete, G19.2.2.1, Option.isSome_none]
    · show is_analysis_complete (runMsgs env fresh_state (List.take 20 [a0, a1, a2, a3, a4, p5, a6, a7, a8, a9, a10, a11, a12, a13, a14, a15, a16, a17, a18, a19, a20, a21, a22])) = false
      rw [show List.take 20 ([a0, a1, a2, a3, a4, p5, a6, a7, a8, a9, a10, a11, a12, a13, a14, a15, a16, a17, a18, a19, a20, a21, a22] : List String) = [a0, a1, a2, a3, a4, p5, a6, a7, a8, a9, a10, a11, a12, a13, a14, a15, a16, a17, a18, a19] from rfl]
      simp only [is_analysis_complete, G20.2.2.1, Option.isSome_none]
    · show is_analysis_complete (runMsgs env fresh_state (List.take 21 [a0, a1, a2, a3, a4, p5, a6, a7, a8, a9, a10, a11, a12, a13, a14, a15, a16, a17, a18, a19, a20, a21, a22])) = false
      rw [show List.take 21 ([a0, a1, a2, a3, a4, p5, a6, a7, a8, a9, a10, a11, a12, a13, a14, a15, a16, a17, a18, a19, a20, a21, a22] : List String) = [a0, a1, a2, a3, a4, p5, a6, a7, a8, a9, a10, a11, a12, a13, a14, a15, a16, a17, a18, a19, a20] from rfl]
      simp only [is_analysis_complete, G21.2.2.1, Option.isSome_none]
    · show is_analysis_complete (runMsgs env fresh_state (List.take 22 [a0, a1, a2, a3, a4, p5, a6, a7, a8, a9, a10, a11, a12, a13, a14, a15, a16, a17, a18, a19, a20, a21, a22])) = false
      rw [show List.take 22 ([a0, a1, a2, a3, a4, p5, a6, a7, a8, a9, a10, a11, a12, a13, a14, a15, a16, a17, a18, a19, a20, a21, a22] : List String) = [a0, a1, a2, a3, a4, p5, a6, a7, a8, a9, a10, a11, a12, a13, a14, a15, a16, a17, a18, a19, a20, a21] from rfl]
      simp only [is_analysis_complete, G22.2.2.1, Option.isSome_none]
    · show is_analysis_complete (runMsgs env fresh_state (List.take 23 [a0, a1, a2, a3, a4, p5, a6, a7, a8, a9, a10, a11, a12, a13, a14, a15, a16, a17, a18, a19, a20, a21, a22])) = false
      rw [show List.take 23 ([a0, a1, a2, a3, a4, p5, a6, a7, a8, a9, a10, a11, a12, a13, a14, a15, a16, a17, a18, a19, a20, a21, a22] : List String) = [a0, a1, a2, a3, a4, p5, a6, a7, a8, a9, a10, a11, a12, a13, a14, a15, a16, a17, a18, a19, a20, a21, a22] from rfl]
      simp only [is_analysis_complete, G23.2.2, Option.isSome_none]
  · rw [htake22]
    exact h23.2.2.2

/-- A concrete valid 23-message script for the full conversation. -/
def msgs23 : List String :=
  ["John", "30", "male", "yes", "none", "1, 44", "no", "no", "no", "no",
   "28", "31", "0", "yes", "yes", "no", "none", "none", "4.8", "7",
   "normal", "45", "80"]

/-- C5 witness: the two-phase handoff on a concrete scripted run against
the reference environment. -/
theorem full_run_two_phase_witness :
    (runMsgs envRef fresh_state msgs23).step = .finalWaiting
    ∧ is_analysis_complete (handle_input envRef (runMsgs envRef fresh_state msgs23) "go").1
        = true
    ∧ is_analysis_complete (runMsgs envRef fresh_state (msgs23.take 23)) = false := by
  have h := full_run_two_phase envRef rfl (fun _ => rfl) "John" "30" "male" "yes" "none"
    "1, 44" "no" "no" "no" "no" "28" "31" "0" "yes" "yes" "no" "none" "none" "4.8" "7"
    "normal" "45" "80" "go" [0, 43] msgs23 rfl (by decide)
  exact ⟨h.2.2.1, h.2.2.2.1, h.1 23 (le_refl 23)⟩
